import Mathlib

/-!
Verification development for the eztransferweights weight-transfer engine.

The embedding follows `libs/abstracttransfer.py`, `libs/closestpoint.py`,
`libs/inversedistance.py`, `libs/pointonsurface.py` and `libs/skinwrap.py`.
Floating-point numbers are modelled as rationals.  World-space vertex
positions are opaque to the algorithms (they only flow into the external
`Vector.distanceBetween` and the scipy `cKDTree` queries), so a position is
modelled as a rational handle and the Euclidean metric as an environment
function `dist`.  External collaborators (the dcc skin/mesh adapters and the
scipy spatial index) are modelled from their contracts in the spec.
-/

/-- A `VertexWeightMap`: association list from influence id to weight,
mirroring a Python `dict` in insertion order. -/
abbrev WeightMap := List (Nat × ℚ)

/-- Python `dict` lookup: the value bound to `k`, if present. -/
def dlookup {α : Type} (d : List (Nat × α)) (k : Nat) : Option α :=
  match d with
  | [] => none
  | e :: rest => if e.1 = k then some e.2 else dlookup rest k

/-- Python `dict` assignment `d[k] = x`: replaces the binding in place when the
key exists, otherwise appends it (dict insertion order). -/
def dinsert {α : Type} (d : List (Nat × α)) (k : Nat) (x : α) : List (Nat × α) :=
  match d with
  | [] => [(k, x)]
  | e :: rest => if e.1 = k then (k, x) :: rest else e :: dinsert rest k x

/-- Python `dict.update(d2)`: assign every binding of `d2` into `d`, in order. -/
def dupdate {α : Type} (d d2 : List (Nat × α)) : List (Nat × α) :=
  d2.foldl (fun acc e => dinsert acc e.1 e.2) d

/-- Python `defaultdict(float)` accumulation `d[k] += x`: adds to the existing
value, treating a missing key as `0`. -/
def bump (d : WeightMap) (k : Nat) (x : ℚ) : WeightMap :=
  match d with
  | [] => [(k, x)]
  | e :: rest => if e.1 = k then (k, e.2 + x) :: rest else e :: bump rest k x

/-- Failures the transfer code can raise: Python `ZeroDivisionError`,
`KeyError`/lookup failure, `TypeError` (also the signal `skinmath` reserves for
zero weights), and the spec's `EmptySourceSet` condition. -/
inductive Err where
  | zeroDivision : Err
  | keyError : Err
  | typeError : Err
  | emptySourceSet : Err
deriving DecidableEq

/-- Observable events of a `transfer` call: a progress callback invocation
`notify(p)` and the single batch write `applyVertexWeights(batch)`. -/
inductive Ev where
  | notify : ℤ → Ev
  | apply : List (Nat × WeightMap) → Ev
deriving DecidableEq

/-- Read/write skin adapter data (the dcc `fnskin.FnSkin` contract, spec item 6):
vertex count, world-space control points, per-vertex weight maps and the
max-influences cap. -/
structure SkinData where
  numControlPoints : Nat
  controlPoints : Nat → ℚ
  vertexWeights : Nat → WeightMap
  maxInfluences : Nat

/-- A `SurfaceHit` as produced by the geometry adapter's
`closestPointOnSurface` query (spec item 3). -/
structure Hit where
  faceVertexIndices : List Nat
  baryCoords : List ℚ
  biCoords : List ℚ
  point : ℚ
  faceVertexPoints : List ℚ
deriving DecidableEq

/-- Read-only mesh adapter data (the dcc `fnmesh.FnMesh` contract, spec item 6):
vertex positions and the connectivity queries the algorithms consume. -/
structure MeshData where
  position : Nat → ℚ
  connectedFacesOfVertex : Nat → List Nat
  connectedFacesOfFaces : Finset Nat → List Nat
  connectedEdgesOfFaces : Finset Nat → List Nat
  edgeVertices : Nat → Nat × Nat
  connectedFacesOfVertices : List Nat → List Nat
  closestPointOnSurface : Finset Nat → ℚ → Hit

/-- The collaborators one `transfer` call touches: source skin and mesh, target
skin and mesh, the external distance metric, and the influence-id translation
(`createInfluenceMap`) built by the skin adapter. -/
structure Env where
  dist : ℚ → ℚ → ℚ
  skin : SkinData
  mesh : MeshData
  otherSkin : SkinData
  otherMesh : MeshData
  influenceMap : Nat → Nat

/-- Modelled from the spec: dcc `skinmath.normalizeWeights` is not part of the
sources provided.  Per spec items 3 and 4.6 it scales a weight map so the
weights sum to one, and signals failure (the `TypeError` that `SkinWrap`
catches, reserved for zero weights) when the weights sum to zero or when more
non-zero influences remain than `maxInfluences` allows. -/
def normalizeWeights (m : WeightMap) (maxInfluences : Nat) : Option WeightMap :=
  let total := (m.map (fun e => e.2)).sum
  if total = 0 then none
  else if maxInfluences < (m.filter (fun e => !(e.2 == 0))).length then none
  else some (m.map (fun e => (e.1, e.2 / total)))

/-- Linear blend of weight maps: the union of the influence ids, each mapped to
the coefficient-weighted sum of its weights across the maps. -/
def blendMaps (pairs : List (ℚ × WeightMap)) : WeightMap :=
  let keys := ((pairs.map (fun p => p.2.map (fun e => e.1))).flatten).eraseDups
  keys.map (fun k =>
    (k, (pairs.map (fun p => p.1 * ((dlookup p.2 k).getD 0))).sum))

/-- Modelled from the spec: dcc `fnskin.inverseDistanceWeights` is not part of
the sources provided.  Per spec item 4.4 it fails with the `EmptySourceSet`
condition when no source vertex participates, uses a source vertex's map
exactly when its distance is zero, and otherwise returns the normalized
average of all maps with contribution coefficients `1 / distance ^ power`. -/
def inverseDistanceWeights (maps : List WeightMap) (distances : List ℚ)
    (power : Nat) : Except Err WeightMap :=
  if maps.isEmpty then .error .emptySourceSet
  else
    match distances.findIdx? (fun d => d == 0) with
    | some i => .ok ((maps.get? i).getD [])
    | none =>
      let coeffs := distances.map (fun d => 1 / d ^ power)
      let total := coeffs.sum
      .ok ((blendMaps (coeffs.zip maps)).map (fun e => (e.1, e.2 / total)))

/-- Modelled from the spec: dcc `fnskin.barycentricWeights` is not part of the
sources provided.  Per spec item 4.5 it interpolates the face vertices' weight
maps with the hit's barycentric coordinates. -/
def barycentricWeights (skin : SkinData) (faceVertexIndices : List Nat)
    (coords : List ℚ) : WeightMap :=
  blendMaps (coords.zip (faceVertexIndices.map skin.vertexWeights))

/-- Modelled from the spec: dcc `fnskin.bilinearWeights` is not part of the
sources provided.  Per spec item 4.5 it interpolates the four face vertices'
weight maps with the hit's bilinear coordinates. -/
def bilinearWeights (skin : SkinData) (faceVertexIndices : List Nat)
    (coords : List ℚ) : WeightMap :=
  blendMaps (coords.zip (faceVertexIndices.map skin.vertexWeights))

/-- Modelled from the spec: rewriting one weight map through an influence map,
merging weights that collide on the same target id by summation (spec
item 4.2). -/
def remapOne (m : WeightMap) (imap : Nat → Nat) : WeightMap :=
  m.foldl (fun acc e => bump acc (imap e.1) e.2) []

/-- Modelled from the spec: dcc `fnskin.remapVertexWeights` is not part of the
sources provided.  Per spec item 4.2 it rewrites every update's influence ids
through the influence map, merging collisions by summation. -/
def remapVertexWeights (updates : List (Nat × WeightMap)) (imap : Nat → Nat) :
    List (Nat × WeightMap) :=
  updates.map (fun e => (e.1, remapOne e.2 imap))

/-- `SkinWrap.computeWeight` (`libs/skinwrap.py`): the radial falloff curve
`1 - t / ((2 ^ (-falloff) - 1) * (1 - t) + 1)` for `t = distance / maxDistance`
inside `[0, maxDistance]`, and `0` outside. -/
def computeWeight (falloff : ℤ) (distance maxDistance : ℚ) : ℚ :=
  if 0 ≤ distance ∧ distance ≤ maxDistance then
    let weight := distance / maxDistance
    1 - weight / (((2 : ℚ) ^ (-falloff) - 1) * (1 - weight) + 1)
  else 0

theorem computeWeight_of_inside (falloff : ℤ) (d r : ℚ) (h0 : 0 ≤ d) (h1 : d ≤ r) :
    computeWeight falloff d r =
      1 - (d / r) / (((2 : ℚ) ^ (-falloff) - 1) * (1 - d / r) + 1) := by
  unfold computeWeight
  rw [if_pos ⟨h0, h1⟩]

theorem computeWeight_of_outside (falloff : ℤ) (d r : ℚ) (h : ¬ (0 ≤ d ∧ d ≤ r)) :
    computeWeight falloff d r = 0 := by
  unfold computeWeight
  rw [if_neg h]

/-- Claim C3: for `0 ≤ d ≤ r` (radius `r > 0`), `computeWeight d r` equals
`1 - t / ((2 ^ (-falloff) - 1) * (1 - t) + 1)` with `t = d / r`, and equals `0`
whenever `d` lies outside `[0, r]`; at `falloff = 0` the curve reduces to the
linear `1 - t`, and it passes through `(0, 1)` and `(r, 0)`. -/
theorem skinWrap_computeWeight_curve (falloff : ℤ) (d r : ℚ) (hr : 0 < r) :
    (0 ≤ d → d ≤ r → computeWeight falloff d r =
      1 - (d / r) / (((2 : ℚ) ^ (-falloff) - 1) * (1 - d / r) + 1)) ∧
    (¬ (0 ≤ d ∧ d ≤ r) → computeWeight falloff d r = 0) ∧
    (0 ≤ d → d ≤ r → computeWeight 0 d r = 1 - d / r) ∧
    computeWeight falloff 0 r = 1 ∧
    computeWeight falloff r r = 0 := by
  refine ⟨fun h0 h1 => computeWeight_of_inside falloff d r h0 h1,
          fun h => computeWeight_of_outside falloff d r h, fun h0 h1 => ?_, ?_, ?_⟩
  · rw [computeWeight_of_inside 0 d r h0 h1]
    norm_num
  · rw [computeWeight_of_inside falloff 0 r le_rfl hr.le]
    simp
  · rw [computeWeight_of_inside falloff r r hr.le le_rfl]
    rw [div_self hr.ne']
    norm_num

/-- Witness for C3: at `falloff = 2`, `r = 1` the curve takes value `1` at
distance `0`. -/
theorem skinWrap_computeWeight_curve_witness : computeWeight 2 0 1 = 1 :=
  (skinWrap_computeWeight_curve 2 0 1 (by norm_num)).2.2.2.1

/-- Claim C10: for `falloff ≥ 0` and `maxDistance > 0`, `computeWeight` always
returns a value in `[0, 1]`, returning `0` outside `[0, maxDistance]`; inside,
the denominator `(2 ^ (-falloff) - 1) * (1 - t) + 1` is bounded below by
`t = d / maxDistance`, so the result never drops below `0` nor exceeds `1`. -/
theorem skinWrap_computeWeight_bounded (falloff : ℤ) (r : ℚ)
    (hf : 0 ≤ falloff) (hr : 0 < r) (d : ℚ) :
    0 ≤ computeWeight falloff d r ∧ computeWeight falloff d r ≤ 1 ∧
    (d / r ≤ ((2 : ℚ) ^ (-falloff) - 1) * (1 - d / r) + 1 ∨
      ¬ (0 ≤ d ∧ d ≤ r)) ∧
    (¬ (0 ≤ d ∧ d ≤ r) → computeWeight falloff d r = 0) := by
  by_cases h : 0 ≤ d ∧ d ≤ r
  · have ht0 : 0 ≤ d / r := div_nonneg h.1 hr.le
    have ht1 : d / r ≤ 1 := (div_le_one hr).mpr h.2
    have hc0 : (0 : ℚ) < (2 : ℚ) ^ (-falloff) := by positivity
    have hmul : 0 ≤ (2 : ℚ) ^ (-falloff) * (1 - d / r) :=
      mul_nonneg hc0.le (by linarith)
    have key : ((2 : ℚ) ^ (-falloff) - 1) * (1 - d / r) + 1 =
        (2 : ℚ) ^ (-falloff) * (1 - d / r) + d / r := by ring
    have hd0 : 0 < ((2 : ℚ) ^ (-falloff) - 1) * (1 - d / r) + 1 := by
      rw [key]
      rcases eq_or_lt_of_le ht0 with ht | ht
      · have : d / r = 0 := ht.symm
        rw [this]
        simpa using hc0
      · linarith
    have hle : d / r ≤ ((2 : ℚ) ^ (-falloff) - 1) * (1 - d / r) + 1 := by
      rw [key]; linarith
    have hdivle : d / r / (((2 : ℚ) ^ (-falloff) - 1) * (1 - d / r) + 1) ≤ 1 :=
      (div_le_one hd0).mpr hle
    have hdiv0 : 0 ≤ d / r / (((2 : ℚ) ^ (-falloff) - 1) * (1 - d / r) + 1) :=
      div_nonneg ht0 hd0.le
    rw [computeWeight_of_inside falloff d r h.1 h.2]
    exact ⟨by linarith, by linarith, Or.inl hle, fun hc => absurd h hc⟩
  · rw [computeWeight_of_outside falloff d r h]
    exact ⟨le_rfl, by norm_num, Or.inr h, fun _ => rfl⟩

/-- Witness for C10: at `falloff = 1`, `maxDistance = 1`, `d = 1/3` the weight
lies in `[0, 1]`. -/
theorem skinWrap_computeWeight_bounded_witness :
    0 ≤ computeWeight 1 (1/3) 1 ∧ computeWeight 1 (1/3) 1 ≤ 1 ∧
    ((1/3 : ℚ) / 1 ≤ ((2 : ℚ) ^ (-(1 : ℤ)) - 1) * (1 - (1/3 : ℚ) / 1) + 1 ∨
      ¬ ((0 : ℚ) ≤ 1/3 ∧ (1/3 : ℚ) ≤ 1)) ∧
    (¬ ((0 : ℚ) ≤ 1/3 ∧ (1/3 : ℚ) ≤ 1) → computeWeight 1 (1/3) 1 = 0) :=
  skinWrap_computeWeight_bounded 1 1 (by norm_num) (by norm_num) (1/3)

/-- A Python argument as `AbstractTransfer.__init__` inspects it: a skin
function set, a vertex collection of a recognized type (`list`, `tuple` or
`set`), or a value of any other type. -/
inductive PyArg where
  | skin : SkinData → PyArg
  | list : List Nat → PyArg
  | tuple : List Nat → PyArg
  | set : List Nat → PyArg
  | other : PyArg

/-- The `isinstance(vertexIndices, (list, tuple, set))` check of
`AbstractTransfer.__init__` (`libs/abstracttransfer.py`). -/
def PyArg.isCollection : PyArg → Bool
  | .list _ => true
  | .tuple _ => true
  | .set _ => true
  | _ => false

/-- The vertex indices carried by a recognized collection argument. -/
def PyArg.elements : PyArg → List Nat
  | .list xs => xs
  | .tuple xs => xs
  | .set xs => xs
  | _ => []

/-- The state `AbstractTransfer.__init__` builds: the bound skin, the frozen
vertex subset, and the local-to-global vertex map
`_vertexMap = dict(enumerate(vertexIndices))`. -/
structure TransferState where
  skin : SkinData
  vertexIndices : List Nat

/-- Modelled from the spec: the `localVertexMap` accessor used by
`ClosestPoint.transfer` and `SkinWrap.closestVertexWeights` is not among the
sources provided (only its callers are).  Per spec item 4.3 it is the map from
spatial-index-local position to global source-vertex id, which matches
`_vertexMap = dict(enumerate(self._vertexIndices))` built in
`AbstractTransfer.__init__`. -/
def localVertexMap (vertexIndices : List Nat) (localIndex : Nat) : Option Nat :=
  vertexIndices.get? localIndex

/-- `AbstractTransfer.__init__` (`libs/abstracttransfer.py`): validates the
argument count, the skin argument and the vertex-collection argument, raising
`TypeError` before any state is built; with a skin alone the vertex subset is
frozen as `list(range(skin.numControlPoints()))`. -/
def abstractTransferInit (args : List PyArg) : Except Err TransferState :=
  match args with
  | [a] =>
    match a with
    | .skin s => .ok ⟨s, List.range s.numControlPoints⟩
    | _ => .error .typeError
  | [a, b] =>
    match a with
    | .skin s =>
      if b.isCollection then .ok ⟨s, b.elements⟩ else .error .typeError
    | _ => .error .typeError
  | _ => .error .typeError

/-- Claim C9: a first argument that is not a valid skin, a second argument
that is not a `list`, `tuple` or `set`, or an argument count other than 1 or 2
raises a `TypeError` before any state is built; with a skin alone, the bound
vertex subset is frozen at construction as the full range
`0 .. numControlPoints - 1`. -/
theorem abstractTransferInit_validates (args : List PyArg) :
    (∀ s : SkinData, abstractTransferInit [PyArg.skin s] =
      .ok ⟨s, List.range s.numControlPoints⟩) ∧
    (∀ a, (∀ s, a ≠ PyArg.skin s) →
      abstractTransferInit [a] = .error .typeError) ∧
    (∀ a b, (∀ s, a ≠ PyArg.skin s) →
      abstractTransferInit [a, b] = .error .typeError) ∧
    (∀ (s : SkinData) (b : PyArg), b.isCollection = false →
      abstractTransferInit [PyArg.skin s, b] = .error .typeError) ∧
    (args.length ≠ 1 → args.length ≠ 2 →
      abstractTransferInit args = .error .typeError) := by
  refine ⟨fun s => rfl, fun a ha => ?_, fun a b ha => ?_, fun s b hb => ?_,
    fun h1 h2 => ?_⟩
  · cases a with
    | skin s => exact absurd rfl (ha s)
    | list xs => rfl
    | tuple xs => rfl
    | set xs => rfl
    | other => rfl
  · cases a with
    | skin s => exact absurd rfl (ha s)
    | list xs => rfl
    | tuple xs => rfl
    | set xs => rfl
    | other => rfl
  · simp [abstractTransferInit, hb]
  · match args with
    | [] => rfl
    | [a] => exact absurd rfl h1
    | [a, b] => exact absurd rfl h2
    | a :: b :: c :: rest => rfl

/-- Witness for C9: a lone non-skin argument is rejected with `TypeError`. -/
theorem abstractTransferInit_validates_witness :
    abstractTransferInit [PyArg.other] = .error .typeError :=
  (abstractTransferInit_validates []).2.1 PyArg.other
    (fun s h => PyArg.noConfusion h)

theorem dlookup_dinsert_self {α : Type} (d : List (Nat × α)) (k : Nat) (x : α) :
    dlookup (dinsert d k x) k = some x := by
  induction d with
  | nil => simp [dinsert, dlookup]
  | cons e rest ih =>
    by_cases h : e.1 = k
    · simp [dinsert, dlookup, h]
    · simp [dinsert, dlookup, h, ih]

theorem dlookup_dinsert_ne {α : Type} (d : List (Nat × α)) (k k' : Nat) (x : α)
    (h : k' ≠ k) : dlookup (dinsert d k x) k' = dlookup d k' := by
  have hkk : ¬ k = k' := fun hh => h hh.symm
  induction d with
  | nil =>
    simp only [dinsert, dlookup]
    rw [if_neg hkk]
  | cons e rest ih =>
    by_cases he : e.1 = k
    · rw [dinsert, if_pos he]
      simp only [dlookup]
      have hek : ¬ e.1 = k' := fun hh => hkk (he.symm.trans hh)
      rw [if_neg hkk, if_neg hek]
    · rw [dinsert, if_neg he]
      by_cases he2 : e.1 = k'
      · simp only [dlookup]
        rw [if_pos he2, if_pos he2]
      · simp only [dlookup]
        rw [if_neg he2, if_neg he2, ih]

theorem mem_keys_dinsert {α : Type} (d : List (Nat × α)) (k a : Nat) (x : α) :
    a ∈ (dinsert d k x).map Prod.fst ↔ a = k ∨ a ∈ d.map Prod.fst := by
  induction d with
  | nil => simp [dinsert]
  | cons e rest ih =>
    by_cases he : e.1 = k
    · subst he
      simp [dinsert]
    · simp only [dinsert, if_neg he, List.map_cons, List.mem_cons, ih]
      tauto

theorem keys_nodup_dinsert {α : Type} (d : List (Nat × α)) (k : Nat) (x : α)
    (h : (d.map Prod.fst).Nodup) : ((dinsert d k x).map Prod.fst).Nodup := by
  induction d with
  | nil => simp [dinsert]
  | cons e rest ih =>
    rw [List.map_cons, List.nodup_cons] at h
    by_cases he : e.1 = k
    · subst he
      simpa [dinsert, List.nodup_cons] using h
    · rw [dinsert, if_neg he, List.map_cons, List.nodup_cons]
      refine ⟨fun hc => ?_, ih h.2⟩
      rcases (mem_keys_dinsert rest k e.1 x).mp hc with h1 | h1
      · exact he h1
      · exact h.1 h1

/-- Models the scipy `cKDTree` nearest-neighbor query (spec item 4.1): scan
of the point list keeping the first point of minimal distance, carrying the
running index. -/
def nearestAux (dist : ℚ → ℚ → ℚ) (q : ℚ) : List ℚ → Nat → Option (Nat × ℚ)
  | [], _ => none
  | p :: rest, i =>
    match nearestAux dist q rest (i + 1) with
    | none => some (i, dist q p)
    | some jd => if dist q p ≤ jd.2 then some (i, dist q p) else some jd

/-- `cKDTree.query`: the index (into the construction sequence) of the closest
point, `none` on an empty point set. -/
def nearestIdx (dist : ℚ → ℚ → ℚ) (pts : List ℚ) (q : ℚ) : Option Nat :=
  (nearestAux dist q pts 0).map (fun e => e.1)

theorem nearestAux_isSome (dist : ℚ → ℚ → ℚ) (q : ℚ) :
    ∀ (pts : List ℚ) (i : Nat), pts ≠ [] → (nearestAux dist q pts i).isSome := by
  intro pts
  induction pts with
  | nil => intro i h; exact absurd rfl h
  | cons p rest ih =>
    intro i _
    show (nearestAux dist q (p :: rest) i).isSome
    rw [nearestAux]
    cases h2 : nearestAux dist q rest (i + 1) with
    | none => rfl
    | some jd =>
      by_cases hle : dist q p ≤ jd.2 <;> simp [hle]

theorem nearestAux_spec (dist : ℚ → ℚ → ℚ) (q : ℚ) :
    ∀ (pts : List ℚ) (i j : Nat) (dj : ℚ),
      nearestAux dist q pts i = some (j, dj) →
      i ≤ j ∧ j < i + pts.length ∧
      ∃ p, pts.get? (j - i) = some p ∧ dj = dist q p ∧
        ∀ p' ∈ pts, dj ≤ dist q p' := by
  intro pts
  induction pts with
  | nil => intro i j dj h; simp [nearestAux] at h
  | cons p rest ih =>
    intro i j dj h
    rw [nearestAux] at h
    cases h2 : nearestAux dist q rest (i + 1) with
    | none =>
      have hrest : rest = [] := by
        by_contra hne
        have := nearestAux_isSome dist q rest (i + 1) hne
        rw [h2] at this
        exact Bool.noConfusion this
      rw [h2] at h
      injection h with h'
      injection h' with hj hd
      subst hrest
      refine ⟨hj ▸ le_rfl, by simp [← hj], p, ?_, hd.symm, ?_⟩
      · simp [← hj]
      · intro p' hp'
        rcases List.mem_singleton.mp hp' with rfl
        exact hd ▸ le_rfl
    | some jd =>
      rw [h2] at h
      dsimp only at h
      obtain ⟨hij, hjlt, pr, hpr, hdj, hmin⟩ :=
        ih i.succ jd.1 jd.2 (by simpa using h2)
      by_cases hle : dist q p ≤ jd.2
      · rw [if_pos hle] at h
        injection h with h'
        injection h' with hj hd
        subst hj
        refine ⟨le_rfl, by simp, p, by simp, hd.symm, ?_⟩
        intro p' hp'
        rcases List.mem_cons.mp hp' with rfl | hp'
        · exact hd ▸ le_rfl
        · exact hd ▸ le_trans hle (hmin p' hp')
      · rw [if_neg hle] at h
        injection h with h'
        subst h'
        dsimp only at hij hjlt hpr hdj hmin hle
        have hji : j - i = (j - (i + 1)) + 1 := by omega
        refine ⟨by omega, by simp; omega, pr, ?_, hdj, ?_⟩
        · rw [hji]
          simpa using hpr
        · intro p' hp'
          rcases List.mem_cons.mp hp' with rfl | hp'
          · exact le_of_lt (lt_of_not_le hle)
          · exact hmin p' hp'

theorem nearestIdx_isSome (dist : ℚ → ℚ → ℚ) (pts : List ℚ) (q : ℚ)
    (h : pts ≠ []) : (nearestIdx dist pts q).isSome := by
  unfold nearestIdx
  cases h2 : nearestAux dist q pts 0 with
  | none =>
    have := nearestAux_isSome dist q pts 0 h
    rw [h2] at this
    exact Bool.noConfusion this
  | some jd => rfl

theorem nearestIdx_spec (dist : ℚ → ℚ → ℚ) (pts : List ℚ) (q : ℚ) (j : Nat)
    (h : nearestIdx dist pts q = some j) :
    j < pts.length ∧ ∃ p, pts.get? j = some p ∧ ∀ p' ∈ pts, dist q p ≤ dist q p' := by
  unfold nearestIdx at h
  cases h2 : nearestAux dist q pts 0 with
  | none => rw [h2] at h; exact Option.noConfusion h
  | some jd =>
    rw [h2] at h
    injection h with h'
    obtain ⟨_, hlt, p, hp, hdj, hmin⟩ := nearestAux_spec dist q pts 0 jd.1 jd.2 (by simpa using h2)
    subst h'
    refine ⟨by simpa using hlt, p, by simpa using hp, fun p' hp' => hdj ▸ hmin p' hp'⟩

/-- The per-vertex loop of `ClosestPoint.transfer` (`libs/closestpoint.py`):
for each `(vertexIndex, vertexPoint)` pair, query the point tree, map the
local index back to a global index through `localVertexMap`, record that
source vertex's weights as the update, then signal
`notify(ceil(i * progressFactor))`.  A failed lookup aborts the loop
(Python `KeyError`). -/
def closestPointLoop (env : Env) (srcIdxs : List Nat) (srcPts : List ℚ)
    (factor : ℚ) :
    List (Nat × ℚ) → Nat → List (Nat × WeightMap) →
    List (Nat × WeightMap) × List Ev × Option Err
  | [], _, us => (us, [], none)
  | (v, p) :: rest, i, us =>
    match nearestIdx env.dist srcPts p with
    | none => (us, [], some .keyError)
    | some li =>
      match localVertexMap srcIdxs li with
      | none => (us, [], some .keyError)
      | some gi =>
        let res := closestPointLoop env srcIdxs srcPts factor rest (i + 1)
          (dinsert us v (env.skin.vertexWeights gi))
        (res.1, Ev.notify (Int.ceil ((i : ℚ) * factor)) :: res.2.1, res.2.2)

/-- The update dictionary built by `ClosestPoint.transfer` before remapping:
the loop run over `zip(vertexIndices, vertexPoints)` with the cached source
control points and `progressFactor = 100 / len(vertexIndices)`. -/
def closestPointUpdates (env : Env) (srcIdxs tgtIdxs : List Nat) :
    List (Nat × WeightMap) × List Ev × Option Err :=
  closestPointLoop env srcIdxs (srcIdxs.map env.skin.controlPoints)
    (100 / (tgtIdxs.length : ℚ))
    (tgtIdxs.zip (tgtIdxs.map env.otherSkin.controlPoints)) 1 []

/-- `ClosestPoint.transfer` (`libs/closestpoint.py`): computes
`progressFactor` (raising `ZeroDivisionError` on an empty target list), runs
the per-vertex loop, then remaps the updates through the influence map and
applies them to the target skin as one batch. -/
def closestPointTransfer (env : Env) (srcIdxs tgtIdxs : List Nat) :
    List Ev × Option Err :=
  if tgtIdxs.length = 0 then ([], some .zeroDivision)
  else
    let res := closestPointUpdates env srcIdxs tgtIdxs
    match res.2.2 with
    | some e => (res.2.1, some e)
    | none =>
      (res.2.1 ++ [Ev.apply (remapVertexWeights res.1 env.influenceMap)], none)

theorem closestPointLoop_spec (env : Env) (srcIdxs : List Nat) (factor : ℚ)
    (hsrc : srcIdxs ≠ []) :
    ∀ (tgt : List Nat) (i : Nat) (us : List (Nat × WeightMap)),
      (closestPointLoop env srcIdxs (srcIdxs.map env.skin.controlPoints) factor
          (tgt.zip (tgt.map env.otherSkin.controlPoints)) i us).2.2 = none ∧
      (∀ v, dlookup (closestPointLoop env srcIdxs
            (srcIdxs.map env.skin.controlPoints) factor
            (tgt.zip (tgt.map env.otherSkin.controlPoints)) i us).1 v =
        if v ∈ tgt then
          (nearestIdx env.dist (srcIdxs.map env.skin.controlPoints)
              (env.otherSkin.controlPoints v)).bind
            (fun li => (localVertexMap srcIdxs li).map env.skin.vertexWeights)
        else dlookup us v) ∧
      ((us.map Prod.fst).Nodup →
        ((closestPointLoop env srcIdxs (srcIdxs.map env.skin.controlPoints)
            factor (tgt.zip (tgt.map env.otherSkin.controlPoints)) i us).1.map
          Prod.fst).Nodup) := by
  have hptsne : srcIdxs.map env.skin.controlPoints ≠ [] := by
    simpa [List.map_eq_nil] using hsrc
  intro tgt
  induction tgt with
  | nil =>
    intro i us
    exact ⟨rfl, fun v => by simp [closestPointLoop], fun h => h⟩
  | cons v rest ih =>
    intro i us
    obtain ⟨li, hli⟩ := Option.isSome_iff_exists.mp
      (nearestIdx_isSome env.dist (srcIdxs.map env.skin.controlPoints)
        (env.otherSkin.controlPoints v) hptsne)
    have hlt : li < srcIdxs.length := by
      have := (nearestIdx_spec env.dist (srcIdxs.map env.skin.controlPoints)
        (env.otherSkin.controlPoints v) li hli).1
      simpa using this
    obtain ⟨gi, hgi⟩ : ∃ gi, localVertexMap srcIdxs li = some gi :=
      ⟨srcIdxs.get ⟨li, hlt⟩, List.get?_eq_get hlt⟩
    have hred : (v :: rest).zip ((v :: rest).map env.otherSkin.controlPoints) =
        (v, env.otherSkin.controlPoints v) :: rest.zip (rest.map env.otherSkin.controlPoints) := by
      simp
    obtain ⟨ihe, ihl, ihn⟩ := ih (i + 1)
      (dinsert us v (env.skin.vertexWeights gi))
    refine ⟨?_, ?_, ?_⟩
    · rw [hred]
      simp only [closestPointLoop, hli, hgi]
      exact ihe
    · intro v'
      rw [hred]
      simp only [closestPointLoop, hli, hgi]
      rw [ihl v']
      by_cases hmem : v' ∈ rest
      · rw [if_pos hmem, if_pos (List.mem_cons_of_mem v hmem)]
      · by_cases hv : v' = v
        · subst hv
          rw [if_neg hmem, if_pos (List.mem_cons_self v' rest)]
          rw [dlookup_dinsert_self, hli]
          simp [hgi]
        · rw [if_neg hmem, if_neg (by simp [hv, hmem])]
          exact dlookup_dinsert_ne us v v' (env.skin.vertexWeights gi) hv
    · intro hnd
      rw [hred]
      simp only [closestPointLoop, hli, hgi]
      exact ihn (keys_nodup_dinsert us v (env.skin.vertexWeights gi) hnd)

/-- Claim C2: for every Closest Point transfer with a non-empty target vertex
list (and a non-empty bound source subset), every target vertex in the input
list receives exactly one update, and that update is the `VertexWeightMap` of
the nearest source vertex over the bound source subset, copied verbatim with
no blending; the transfer itself completes without error. -/
theorem closestPoint_transfer_exact (env : Env) (srcIdxs tgtIdxs : List Nat)
    (hsrc : srcIdxs ≠ []) (htgt : tgtIdxs ≠ []) :
    (closestPointUpdates env srcIdxs tgtIdxs).2.2 = none ∧
    ((closestPointUpdates env srcIdxs tgtIdxs).1.map Prod.fst).Nodup ∧
    (∀ v, (dlookup (closestPointUpdates env srcIdxs tgtIdxs).1 v).isSome ↔
      v ∈ tgtIdxs) ∧
    (∀ v ∈ tgtIdxs, ∃ li gi,
      nearestIdx env.dist (srcIdxs.map env.skin.controlPoints)
        (env.otherSkin.controlPoints v) = some li ∧
      localVertexMap srcIdxs li = some gi ∧
      (∀ g ∈ srcIdxs,
        env.dist (env.otherSkin.controlPoints v) (env.skin.controlPoints gi) ≤
        env.dist (env.otherSkin.controlPoints v) (env.skin.controlPoints g)) ∧
      dlookup (closestPointUpdates env srcIdxs tgtIdxs).1 v =
        some (env.skin.vertexWeights gi)) ∧
    (closestPointTransfer env srcIdxs tgtIdxs).2 = none := by
  obtain ⟨he, hl, hn⟩ := closestPointLoop_spec env srcIdxs
    (100 / (tgtIdxs.length : ℚ)) hsrc tgtIdxs 1 []
  have hlen0 : ¬ tgtIdxs.length = 0 := by
    simpa [List.length_eq_zero] using htgt
  have hmain : ∀ v ∈ tgtIdxs, ∃ li gi,
      nearestIdx env.dist (srcIdxs.map env.skin.controlPoints)
        (env.otherSkin.controlPoints v) = some li ∧
      localVertexMap srcIdxs li = some gi ∧
      (∀ g ∈ srcIdxs,
        env.dist (env.otherSkin.controlPoints v) (env.skin.controlPoints gi) ≤
        env.dist (env.otherSkin.controlPoints v) (env.skin.controlPoints g)) ∧
      dlookup (closestPointUpdates env srcIdxs tgtIdxs).1 v =
        some (env.skin.vertexWeights gi) := by
    intro v hv
    obtain ⟨li, hli⟩ := Option.isSome_iff_exists.mp
      (nearestIdx_isSome env.dist (srcIdxs.map env.skin.controlPoints)
        (env.otherSkin.controlPoints v) (by simpa [List.map_eq_nil] using hsrc))
    obtain ⟨hlt, p, hp, hmin⟩ := nearestIdx_spec env.dist
      (srcIdxs.map env.skin.controlPoints) (env.otherSkin.controlPoints v) li hli
    have hlt2 : li < srcIdxs.length := by simpa using hlt
    obtain ⟨gi, hgi⟩ : ∃ gi, localVertexMap srcIdxs li = some gi :=
      ⟨srcIdxs.get ⟨li, hlt2⟩, List.get?_eq_get hlt2⟩
    have hpcp : p = env.skin.controlPoints gi := by
      have hq : (srcIdxs.map env.skin.controlPoints).get? li =
          (srcIdxs.get? li).map env.skin.controlPoints := List.get?_map _ _ _
      rw [hp, show srcIdxs.get? li = some gi from hgi] at hq
      simpa using hq
    refine ⟨li, gi, hli, hgi, ?_, ?_⟩
    · intro g hg
      have := hmin (env.skin.controlPoints g) (List.mem_map_of_mem _ hg)
      rw [hpcp] at this
      exact this
    · rw [show (closestPointUpdates env srcIdxs tgtIdxs).1 =
        (closestPointLoop env srcIdxs (srcIdxs.map env.skin.controlPoints)
          (100 / (tgtIdxs.length : ℚ))
          (tgtIdxs.zip (tgtIdxs.map env.otherSkin.controlPoints)) 1 []).1 from rfl]
      rw [hl v, if_pos hv, hli]
      simp [hgi]
  refine ⟨he, hn List.nodup_nil, fun v => ?_, hmain, ?_⟩
  · constructor
    · intro hs
      by_contra hmem
      rw [show (closestPointUpdates env srcIdxs tgtIdxs).1 =
        (closestPointLoop env srcIdxs (srcIdxs.map env.skin.controlPoints)
          (100 / (tgtIdxs.length : ℚ))
          (tgtIdxs.zip (tgtIdxs.map env.otherSkin.controlPoints)) 1 []).1 from rfl]
        at hs
      rw [hl v, if_neg hmem] at hs
      simp [dlookup] at hs
    · intro hv
      obtain ⟨li, gi, _, _, _, hd⟩ := hmain v hv
      rw [hd]
      rfl
  · have he2 : (closestPointUpdates env srcIdxs tgtIdxs).2.2 = none := he
    simp [closestPointTransfer, hlen0, he2]

/-- The per-vertex loop of `InverseDistance.transfer`
(`libs/inversedistance.py`): for each `(vertexIndex, vertexPoint)` pair,
compute the distances to every cached source point, average all source weight
maps through `inverseDistanceWeights`, record the update, then signal
`notify(progress)` where `progress` is the raw 1-based loop counter. -/
def inverseDistanceLoop (env : Env) (srcPts : List ℚ) (srcMaps : List WeightMap)
    (power : Nat) :
    List (Nat × ℚ) → Nat → List (Nat × WeightMap) →
    List (Nat × WeightMap) × List Ev × Option Err
  | [], _, us => (us, [], none)
  | (v, p) :: rest, i, us =>
    match inverseDistanceWeights srcMaps (srcPts.map (fun op => env.dist p op))
        power with
    | .error e => (us, [], some e)
    | .ok avg =>
      let res := inverseDistanceLoop env srcPts srcMaps power rest (i + 1)
        (dinsert us v avg)
      (res.1, Ev.notify (i : ℤ) :: res.2.1, res.2.2)

/-- Python star-expansion of a vertex-index subset into the adapter calls
`controlPoints(*idxs)` / `vertexWeights(*idxs)`: an empty subset star-expands
to the zero-argument form, which returns the data of ALL the skin's vertices
(this repository relies on that convention in `methods/inversedistance.py`,
which indexes the zero-argument `controlPoints()` result by arbitrary global
vertex indices). -/
def starIndices (skin : SkinData) (idxs : List Nat) : List Nat :=
  if idxs.isEmpty then List.range skin.numControlPoints else idxs

/-- `InverseDistance.transfer` (`libs/inversedistance.py`): runs the
per-vertex loop over `zip(vertexIndices, vertexPoints)` with the cached source
points (`controlPoints(*self.vertexIndices)`, built in `__init__`) and weight
maps (`vertexWeights(*self.vertexIndices)`), both star-expanded, then remaps
the updates through the influence map and applies them to the target skin as
one batch. -/
def inverseDistanceTransfer (env : Env) (srcIdxs tgtIdxs : List Nat)
    (power : Nat) : List Ev × Option Err :=
  let srcPts := (starIndices env.skin srcIdxs).map env.skin.controlPoints
  let srcMaps := (starIndices env.skin srcIdxs).map env.skin.vertexWeights
  let res := inverseDistanceLoop env srcPts srcMaps power
    (tgtIdxs.zip (tgtIdxs.map env.otherSkin.controlPoints)) 1 []
  match res.2.2 with
  | some e => (res.2.1, some e)
  | none =>
    (res.2.1 ++ [Ev.apply (remapVertexWeights res.1 env.influenceMap)], none)

/-- A concrete surface hit on a triangle, used to evaluate the embedding on
small inputs. -/
def sampleHit : Hit :=
  { faceVertexIndices := [0, 1, 2], baryCoords := [1, 0, 0], biCoords := [],
    point := 0, faceVertexPoints := [0, 1, 1] }

/-- A concrete one-vertex skin whose single vertex is fully weighted to
influence `0`. -/
def sampleSkin : SkinData :=
  { numControlPoints := 1, controlPoints := fun _ => 0,
    vertexWeights := fun _ => [(0, 1)], maxInfluences := 4 }

/-- A concrete mesh: one face touching vertex `0`, bounded by one edge of
length `1`. -/
def sampleMesh : MeshData :=
  { position := fun n => if n = 0 then 0 else 1,
    connectedFacesOfVertex := fun _ => [0],
    connectedFacesOfFaces := fun _ => [],
    connectedEdgesOfFaces := fun _ => [0],
    edgeVertices := fun _ => (0, 1),
    connectedFacesOfVertices := fun _ => [0],
    closestPointOnSurface := fun _ _ => sampleHit }

/-- A concrete transfer environment over the sample skin and mesh, with the
identity influence map and the absolute-difference metric. -/
def sampleEnv : Env :=
  { dist := fun a b => |a - b|, skin := sampleSkin, mesh := sampleMesh,
    otherSkin := sampleSkin, otherMesh := sampleMesh,
    influenceMap := fun i => i }

/-- With an empty target list the loop never runs and the code silently
applies an empty update batch, whatever the bound source subset. -/
theorem inverseDistance_empty_silent_apply :
    inverseDistanceTransfer sampleEnv [] [] 2 = ([Ev.apply []], none) := rfl

theorem inverseDistanceWeights_ok (maps : List WeightMap)
    (distances : List ℚ) (power : Nat) (h : maps ≠ []) :
    ∃ m, inverseDistanceWeights maps distances power = .ok m := by
  unfold inverseDistanceWeights
  have hie : maps.isEmpty = false := by
    cases maps with
    | nil => exact absurd rfl h
    | cons a l => rfl
  rw [hie]
  simp only [Bool.false_eq_true, if_false]
  cases distances.findIdx? (fun d => d == 0) with
  | none => exact ⟨_, rfl⟩
  | some i => exact ⟨_, rfl⟩

theorem inverseDistanceLoop_ok (env : Env) (srcPts : List ℚ)
    (srcMaps : List WeightMap) (power : Nat) (h : srcMaps ≠ []) :
    ∀ (l : List (Nat × ℚ)) (i : Nat) (us : List (Nat × WeightMap)),
      (inverseDistanceLoop env srcPts srcMaps power l i us).2.2 = none := by
  intro l
  induction l with
  | nil => intro i us; rfl
  | cons vp rest ih =>
    intro i us
    obtain ⟨v, p⟩ := vp
    obtain ⟨m, hm⟩ := inverseDistanceWeights_ok srcMaps
      (srcPts.map (fun op => env.dist p op)) power h
    simp only [inverseDistanceLoop, hm]
    exact ih (i + 1) (dinsert us v m)

/-- Counterexample to claim C6 as stated: an Inverse Distance transfer whose
bound source subset is empty does not fail with `EmptySourceSet` — the empty
subset star-expands to the zero-argument all-vertices form, so on the
concrete one-vertex skin the transfer to one target vertex completes and
silently applies the whole-skin update. -/
theorem inverseDistance_emptySubset_full_transfer :
    inverseDistanceTransfer sampleEnv [] [0] 2 =
      ([Ev.notify 1, Ev.apply [(0, [(0, 1)])]], none) := by
  norm_num [inverseDistanceTransfer, starIndices, inverseDistanceLoop,
    inverseDistanceWeights, sampleEnv, sampleSkin, blendMaps, dinsert,
    dlookup, bump, remapVertexWeights, remapOne, List.findIdx?_cons,
    List.get?]

/-- Claim C6 amended: for every Inverse Distance transfer whose bound source
subset is empty, the empty subset star-expands to the zero-argument
all-vertices form, so the transfer runs over the entire source skin — it is
identical to a transfer bound to the full index range, and whenever the
source skin has at least one control point it completes without error (in
particular it never fails with `EmptySourceSet`); the silent apply it then
performs is exhibited by the counterexample. -/
theorem inverseDistance_emptySubset_uses_whole_skin (env : Env)
    (tgtIdxs : List Nat) (power : Nat) :
    inverseDistanceTransfer env [] tgtIdxs power =
      inverseDistanceTransfer env (List.range env.skin.numControlPoints)
        tgtIdxs power ∧
    (env.skin.numControlPoints ≠ 0 →
      (inverseDistanceTransfer env [] tgtIdxs power).2 = none ∧
      (inverseDistanceTransfer env [] tgtIdxs power).2 ≠
        some Err.emptySourceSet) := by
  have hstar1 : starIndices env.skin ([] : List Nat) =
      List.range env.skin.numControlPoints := rfl
  have hstar2 : starIndices env.skin (List.range env.skin.numControlPoints) =
      List.range env.skin.numControlPoints := by
    unfold starIndices
    split <;> rfl
  constructor
  · simp only [inverseDistanceTransfer, hstar1, hstar2]
  · intro hn
    have hmaps : (starIndices env.skin ([] : List Nat)).map
        env.skin.vertexWeights ≠ [] := by
      rw [hstar1]
      simp [List.map_eq_nil_iff, List.range_eq_nil, hn]
    have hok := inverseDistanceLoop_ok env
      ((starIndices env.skin ([] : List Nat)).map env.skin.controlPoints)
      ((starIndices env.skin ([] : List Nat)).map env.skin.vertexWeights)
      power hmaps (tgtIdxs.zip (tgtIdxs.map env.otherSkin.controlPoints)) 1 []
    constructor
    · simp only [inverseDistanceTransfer, hok]
    · simp only [inverseDistanceTransfer, hok]
      simp

/-- Witness for the amended C6: on the concrete one-vertex skin the
empty-subset transfer equals the full-range transfer and completes without
error. -/
theorem inverseDistance_emptySubset_uses_whole_skin_witness :
    inverseDistanceTransfer sampleEnv [] [0] 2 =
      inverseDistanceTransfer sampleEnv
        (List.range sampleEnv.skin.numControlPoints) [0] 2 ∧
    ((inverseDistanceTransfer sampleEnv [] [0] 2).2 = none ∧
      (inverseDistanceTransfer sampleEnv [] [0] 2).2 ≠
        some Err.emptySourceSet) :=
  ⟨(inverseDistance_emptySubset_uses_whole_skin sampleEnv [0] 2).1,
   (inverseDistance_emptySubset_uses_whole_skin sampleEnv [0] 2).2
     (by decide)⟩

/-- The face set cached by `PointOnSurface.__init__` (`libs/pointonsurface.py`):
the faces connected to the bound source vertices. -/
def pointOnSurfaceFaceIndices (env : Env) (srcIdxs : List Nat) : Finset Nat :=
  (env.mesh.connectedFacesOfVertices srcIdxs).toFinset

/-- The per-hit update computed inside the loop of `PointOnSurface.transfer`
(`libs/pointonsurface.py`): fetch the hit face's vertex weights, then branch on
the face vertex count — 3 vertices take barycentric weights from the hit's
barycentric coordinates, 4 take bilinear weights from the hit's bilinear
coordinates, anything else falls back to inverse-distance weights over the
distances from the hit point to the face vertex points, at the default
power. -/
def pointOnSurfaceVertexUpdate (env : Env) (h : Hit) : Except Err WeightMap :=
  let faceVertexIndices := h.faceVertexIndices
  let vertexWeights := faceVertexIndices.map env.skin.vertexWeights
  if faceVertexIndices.length = 3 then
    .ok (barycentricWeights env.skin faceVertexIndices h.baryCoords)
  else if faceVertexIndices.length = 4 then
    .ok (bilinearWeights env.skin faceVertexIndices h.biCoords)
  else
    inverseDistanceWeights vertexWeights
      (h.faceVertexPoints.map (fun op => env.dist h.point op)) 2

/-- The per-vertex loop of `PointOnSurface.transfer`: record each hit's update
and signal `notify(ceil(i * progressFactor))`; an error aborts the loop. -/
def pointOnSurfaceLoop (env : Env) (factor : ℚ) :
    List (Nat × Hit) → Nat → List (Nat × WeightMap) →
    List (Nat × WeightMap) × List Ev × Option Err
  | [], _, us => (us, [], none)
  | (v, h) :: rest, i, us =>
    match pointOnSurfaceVertexUpdate env h with
    | .error e => (us, [], some e)
    | .ok m =>
      let res := pointOnSurfaceLoop env factor rest (i + 1) (dinsert us v m)
      (res.1, Ev.notify (Int.ceil ((i : ℚ) * factor)) :: res.2.1, res.2.2)

/-- `PointOnSurface.transfer` (`libs/pointonsurface.py`): queries the closest
point on the restricted source face set for every target position, computes
`progressFactor` (raising `ZeroDivisionError` on an empty target list), runs
the loop, then remaps the updates through the influence map and applies them
to the target skin as one batch. -/
def pointOnSurfaceTransfer (env : Env) (srcIdxs tgtIdxs : List Nat) :
    List Ev × Option Err :=
  let faceIndices := pointOnSurfaceFaceIndices env srcIdxs
  let points := tgtIdxs.map env.otherSkin.controlPoints
  let hits := points.map (env.mesh.closestPointOnSurface faceIndices)
  if tgtIdxs.length = 0 then ([], some .zeroDivision)
  else
    let res := pointOnSurfaceLoop env (100 / (tgtIdxs.length : ℚ))
      (tgtIdxs.zip hits) 1 []
    match res.2.2 with
    | some e => (res.2.1, some e)
    | none =>
      (res.2.1 ++ [Ev.apply (remapVertexWeights res.1 env.influenceMap)], none)

theorem pointOnSurfaceVertexUpdate_ok (env : Env) (h : Hit)
    (hne : h.faceVertexIndices ≠ []) :
    ∃ m, pointOnSurfaceVertexUpdate env h = .ok m := by
  unfold pointOnSurfaceVertexUpdate
  by_cases h3 : h.faceVertexIndices.length = 3
  · exact ⟨_, by rw [if_pos h3]⟩
  · by_cases h4 : h.faceVertexIndices.length = 4
    · exact ⟨_, by rw [if_neg h3, if_pos h4]⟩
    · rw [if_neg h3, if_neg h4]
      unfold inverseDistanceWeights
      have hmaps : (h.faceVertexIndices.map env.skin.vertexWeights).isEmpty = false := by
        cases hfv : h.faceVertexIndices with
        | nil => exact absurd hfv hne
        | cons a rest => rfl
      rw [hmaps]
      simp only [Bool.false_eq_true, if_false]
      cases (h.faceVertexPoints.map (fun op => env.dist h.point op)).findIdx?
          (fun d => d == 0) with
      | none => exact ⟨_, rfl⟩
      | some i => exact ⟨_, rfl⟩

theorem pointOnSurfaceLoop_spec (env : Env) (factor : ℚ) (hitOf : Nat → Hit) :
    ∀ (tgt : List Nat) (i : Nat) (us : List (Nat × WeightMap)),
      (∀ v ∈ tgt, (hitOf v).faceVertexIndices ≠ []) →
      (pointOnSurfaceLoop env factor (tgt.zip (tgt.map hitOf)) i us).2.2 =
        none ∧
      (∀ v', dlookup
          (pointOnSurfaceLoop env factor (tgt.zip (tgt.map hitOf)) i us).1 v' =
        if v' ∈ tgt then (pointOnSurfaceVertexUpdate env (hitOf v')).toOption
        else dlookup us v') := by
  intro tgt
  induction tgt with
  | nil =>
    intro i us _
    exact ⟨rfl, fun v' => by simp [pointOnSurfaceLoop]⟩
  | cons v rest ih =>
    intro i us hall
    obtain ⟨m, hm⟩ := pointOnSurfaceVertexUpdate_ok env (hitOf v)
      (hall v (List.mem_cons_self v rest))
    have hred : (v :: rest).zip ((v :: rest).map hitOf) =
        (v, hitOf v) :: rest.zip (rest.map hitOf) := by simp
    obtain ⟨ihe, ihl⟩ := ih (i + 1) (dinsert us v m)
      (fun v' hv' => hall v' (List.mem_cons_of_mem v hv'))
    refine ⟨?_, ?_⟩
    · rw [hred]
      simp only [pointOnSurfaceLoop, hm]
      exact ihe
    · intro v'
      rw [hred]
      simp only [pointOnSurfaceLoop, hm]
      rw [ihl v']
      by_cases hmem : v' ∈ rest
      · rw [if_pos hmem, if_pos (List.mem_cons_of_mem v hmem)]
      · by_cases hv : v' = v
        · subst hv
          rw [if_neg hmem, if_pos (List.mem_cons_self v' rest)]
          rw [dlookup_dinsert_self, hm]
          rfl
        · rw [if_neg hmem, if_neg (by simp [hv, hmem])]
          exact dlookup_dinsert_ne us v v' m hv

/-- Claim C5: for every Point-on-Surface transfer (over target vertices whose
hit faces are non-degenerate), each target vertex's update is computed from
its surface hit by face vertex count — 3 vertices give barycentric
interpolation with the hit's barycentric coordinates, 4 give bilinear
interpolation with the hit's bilinear coordinates, and any other count falls
back to inverse-distance weighting among the hit face's own vertices using the
distances from the hit point to each face vertex at the default power 2 — and
the transfer completes without error. -/
theorem pointOnSurface_transfer_branches (env : Env) (srcIdxs tgtIdxs : List Nat)
    (htgt : tgtIdxs ≠ [])
    (hok : ∀ v ∈ tgtIdxs,
      (env.mesh.closestPointOnSurface (pointOnSurfaceFaceIndices env srcIdxs)
        (env.otherSkin.controlPoints v)).faceVertexIndices ≠ []) :
    (pointOnSurfaceTransfer env srcIdxs tgtIdxs).2 = none ∧
    (∀ v ∈ tgtIdxs, ∃ m,
      pointOnSurfaceVertexUpdate env
        (env.mesh.closestPointOnSurface (pointOnSurfaceFaceIndices env srcIdxs)
          (env.otherSkin.controlPoints v)) = .ok m ∧
      dlookup (pointOnSurfaceLoop env (100 / (tgtIdxs.length : ℚ))
        (tgtIdxs.zip ((tgtIdxs.map env.otherSkin.controlPoints).map
          (env.mesh.closestPointOnSurface
            (pointOnSurfaceFaceIndices env srcIdxs)))) 1 []).1 v = some m ∧
      (((env.mesh.closestPointOnSurface (pointOnSurfaceFaceIndices env srcIdxs)
          (env.otherSkin.controlPoints v)).faceVertexIndices.length = 3 →
        m = barycentricWeights env.skin
          (env.mesh.closestPointOnSurface (pointOnSurfaceFaceIndices env srcIdxs)
            (env.otherSkin.controlPoints v)).faceVertexIndices
          (env.mesh.closestPointOnSurface (pointOnSurfaceFaceIndices env srcIdxs)
            (env.otherSkin.controlPoints v)).baryCoords)) ∧
      (((env.mesh.closestPointOnSurface (pointOnSurfaceFaceIndices env srcIdxs)
          (env.otherSkin.controlPoints v)).faceVertexIndices.length = 4 →
        m = bilinearWeights env.skin
          (env.mesh.closestPointOnSurface (pointOnSurfaceFaceIndices env srcIdxs)
            (env.otherSkin.controlPoints v)).faceVertexIndices
          (env.mesh.closestPointOnSurface (pointOnSurfaceFaceIndices env srcIdxs)
            (env.otherSkin.controlPoints v)).biCoords)) ∧
      ((env.mesh.closestPointOnSurface (pointOnSurfaceFaceIndices env srcIdxs)
          (env.otherSkin.controlPoints v)).faceVertexIndices.length ≠ 3 →
        (env.mesh.closestPointOnSurface (pointOnSurfaceFaceIndices env srcIdxs)
          (env.otherSkin.controlPoints v)).faceVertexIndices.length ≠ 4 →
        inverseDistanceWeights
          ((env.mesh.closestPointOnSurface (pointOnSurfaceFaceIndices env srcIdxs)
            (env.otherSkin.controlPoints v)).faceVertexIndices.map
            env.skin.vertexWeights)
          ((env.mesh.closestPointOnSurface (pointOnSurfaceFaceIndices env srcIdxs)
            (env.otherSkin.controlPoints v)).faceVertexPoints.map
            (fun op => env.dist
              (env.mesh.closestPointOnSurface
                (pointOnSurfaceFaceIndices env srcIdxs)
                (env.otherSkin.controlPoints v)).point op)) 2 = .ok m)) := by
  have hmapmap : (tgtIdxs.map env.otherSkin.controlPoints).map
      (env.mesh.closestPointOnSurface (pointOnSurfaceFaceIndices env srcIdxs)) =
      tgtIdxs.map (fun v => env.mesh.closestPointOnSurface
        (pointOnSurfaceFaceIndices env srcIdxs)
        (env.otherSkin.controlPoints v)) := by
    rw [List.map_map]
    rfl
  obtain ⟨he, hl⟩ := pointOnSurfaceLoop_spec env (100 / (tgtIdxs.length : ℚ))
    (fun v => env.mesh.closestPointOnSurface
      (pointOnSurfaceFaceIndices env srcIdxs) (env.otherSkin.controlPoints v))
    tgtIdxs 1 [] hok
  have hlen0 : ¬ tgtIdxs.length = 0 := by
    simpa [List.length_eq_zero] using htgt
  constructor
  · rw [pointOnSurfaceTransfer]
    rw [if_neg hlen0, hmapmap]
    simp only [he]
  · intro v hv
    obtain ⟨m, hm⟩ := pointOnSurfaceVertexUpdate_ok env _ (hok v hv)
    refine ⟨m, hm, ?_, ?_, ?_, ?_⟩
    · rw [hmapmap, hl v, if_pos hv, hm]
      rfl
    · intro h3
      rw [pointOnSurfaceVertexUpdate] at hm
      rw [if_pos h3] at hm
      exact (Except.ok.injEq _ _).mp hm.symm
    · intro h4
      by_cases h3 : (env.mesh.closestPointOnSurface
          (pointOnSurfaceFaceIndices env srcIdxs)
          (env.otherSkin.controlPoints v)).faceVertexIndices.length = 3
      · omega
      · rw [pointOnSurfaceVertexUpdate] at hm
        rw [if_neg h3, if_pos h4] at hm
        exact (Except.ok.injEq _ _).mp hm.symm
    · intro h3 h4
      rw [pointOnSurfaceVertexUpdate] at hm
      rw [if_neg h3, if_neg h4] at hm
      exact hm

/-- The `ControlPoint` dataclass of `libs/skinwrap.py`: a source vertex, its
world position, its influence radius, and the affected target vertices with
their falloff weights. -/
structure ControlPoint where
  index : Nat
  point : ℚ
  radius : ℚ
  vertexIndices : List Nat
  vertexWeights : List ℚ
deriving DecidableEq

/-- The face-growing loop of `SkinWrap.initializeControlPoint`
(`libs/skinwrap.py`): `for i in range(1, self.faceLimit)` unions in the faces
connected to the current face set, once per iteration. -/
def growFacesLoop (mesh : MeshData) : Nat → Finset Nat → Finset Nat
  | 0, s => s
  | k + 1, s => growFacesLoop mesh k (s ∪ (mesh.connectedFacesOfFaces s).toFinset)

/-- The grown face neighborhood of a source vertex: the faces directly
touching the vertex, grown `faceLimit - 1` times. -/
def growFaces (mesh : MeshData) (faceLimit : Nat) (vertexIndex : Nat) : Finset Nat :=
  growFacesLoop mesh (faceLimit - 1) (mesh.connectedFacesOfVertex vertexIndex).toFinset

/-- Models the scipy `cKDTree.query_ball_point` query (spec item 4.1): the
indices, in construction order, of the points within `radius` of the query
point. -/
def ballIndices (dist : ℚ → ℚ → ℚ) (center radius : ℚ) :
    List ℚ → Nat → List Nat
  | [], _ => []
  | p :: rest, i =>
    if dist center p ≤ radius then i :: ballIndices dist center radius rest (i + 1)
    else ballIndices dist center radius rest (i + 1)

/-- `SkinWrap.initializeControlPoint` (`libs/skinwrap.py`): grow the face
neighborhood, average the lengths of the edges connected to those faces
(raising `ZeroDivisionError` when there are none) and scale by
`distanceInfluence` to get the radius, radius-query the target point cloud,
convert the local hits to global target indices through `_otherVertexMap`,
and compute each hit's falloff weight from its distance. -/
def initializeControlPoint (env : Env) (falloff : ℤ) (distanceInfluence : ℚ)
    (faceLimit : Nat) (tgtIdxs : List Nat) (otherPoints : List ℚ)
    (vertexIndex : Nat) : Except Err ControlPoint :=
  let faceIndices := growFaces env.mesh faceLimit vertexIndex
  let edgeIndices := env.mesh.connectedEdgesOfFaces faceIndices
  let edgeCount := edgeIndices.length
  if edgeCount = 0 then .error .zeroDivision
  else
    let distance := (edgeIndices.map (fun e =>
      env.dist (env.mesh.position (env.mesh.edgeVertices e).1)
        (env.mesh.position (env.mesh.edgeVertices e).2))).sum
    let radius := (distance / (edgeCount : ℚ)) * distanceInfluence
    let vertexPoint := env.mesh.position vertexIndex
    let closestIndices := ballIndices env.dist vertexPoint radius otherPoints 0
    let vertexIndices := closestIndices.filterMap (localVertexMap tgtIdxs)
    let closestPoints := closestIndices.filterMap otherPoints.get?
    let distances := closestPoints.map (fun p => env.dist vertexPoint p)
    let vertexWeights := distances.map (fun d => computeWeight falloff d radius)
    .ok ⟨vertexIndex, vertexPoint, radius, vertexIndices, vertexWeights⟩

/-- The setup loop of `SkinWrap.transfer`: one control point per source
vertex (`enumerate` from 0), signalling
`notify(ceil((i + 1) * progressFactor * 0.5))` after each; a failed control
point aborts the loop. -/
def skinWrapSetup (env : Env) (falloff : ℤ) (distanceInfluence : ℚ)
    (faceLimit : Nat) (tgtIdxs : List Nat) (otherPoints : List ℚ) (factor : ℚ) :
    List Nat → Nat → List ControlPoint × List Ev × Option Err
  | [], _ => ([], [], none)
  | v :: rest, i =>
    match initializeControlPoint env falloff distanceInfluence faceLimit
        tgtIdxs otherPoints v with
    | .error e => ([], [], some e)
    | .ok cp =>
      let res := skinWrapSetup env falloff distanceInfluence faceLimit tgtIdxs
        otherPoints factor rest (i + 1)
      (cp :: res.1,
        Ev.notify (Int.ceil (((i : ℚ) + 1) * factor * (1 / 2))) :: res.2.1,
        res.2.2)

/-- The inner accumulation of `SkinWrap.transfer` for one control point: for
each affected `(vertexIndex, vertexWeight)` pair, create the vertex's
`defaultdict` if absent and add `influenceWeight * vertexWeight` for every
influence of the control point's source vertex. -/
def applyControlPoint (env : Env) (cp : ControlPoint)
    (us : List (Nat × WeightMap)) : List (Nat × WeightMap) :=
  (cp.vertexIndices.zip cp.vertexWeights).foldl (fun acc tw =>
    dinsert acc tw.1 ((env.skin.vertexWeights cp.index).foldl
      (fun m e => bump m e.1 (e.2 * tw.2)) ((dlookup acc tw.1).getD []))) us

/-- The accumulation loop of `SkinWrap.transfer` (`enumerate` from 1):
accumulate each control point and signal
`notify(50 + ceil((i + 1) * progressFactor * 0.5))`. -/
def skinWrapAccum (env : Env) (factor : ℚ) :
    List ControlPoint → Nat → List (Nat × WeightMap) →
    List (Nat × WeightMap) × List Ev
  | [], _, us => (us, [])
  | cp :: rest, i, us =>
    let res := skinWrapAccum env factor rest (i + 1) (applyControlPoint env cp us)
    (res.1, Ev.notify (50 + Int.ceil (((i : ℚ) + 1) * factor * (1 / 2))) :: res.2)

/-- The normalization pass of `SkinWrap.transfer`: normalize every
accumulated map, skipping (`continue`) the vertices whose normalization
signals zero weights. -/
def normalizeUpdates (maxInfluences : Nat) (us : List (Nat × WeightMap)) :
    List (Nat × WeightMap) :=
  us.foldl (fun acc e =>
    match normalizeWeights e.2 maxInfluences with
    | some m => dinsert acc e.1 m
    | none => acc) []

/-- The per-vertex body of `SkinWrap.closestVertexWeights`
(`libs/skinwrap.py`): nearest-query each missing vertex against the tree of
source control points, convert the local index back to global through
`localVertexMap`, and pair the vertex with that source vertex's weights; a
failed query or lookup raises. -/
def closestVertexWeightsAux (env : Env) (srcIdxs : List Nat) (srcPts : List ℚ) :
    List Nat → Option (List (Nat × WeightMap))
  | [] => some []
  | v :: rest =>
    match nearestIdx env.dist srcPts (env.otherSkin.controlPoints v) with
    | none => none
    | some li =>
      match localVertexMap srcIdxs li with
      | none => none
      | some gi =>
        match closestVertexWeightsAux env srcIdxs srcPts rest with
        | none => none
        | some us => some ((v, env.skin.vertexWeights gi) :: us)

/-- `SkinWrap.closestVertexWeights`: the closest-point fallback over the
supplied vertex indices, against a tree built from the bound source subset's
control points. -/
def closestVertexWeights (env : Env) (srcIdxs missing : List Nat) :
    Option (List (Nat × WeightMap)) :=
  closestVertexWeightsAux env srcIdxs (srcIdxs.map env.skin.controlPoints) missing

/-- The target point cloud of `SkinWrap.transfer`: the world-space positions
of the requested target vertices, read through the target mesh. -/
def skinWrapOtherPoints (env : Env) (tgtIdxs : List Nat) : List ℚ :=
  tgtIdxs.map env.otherMesh.position

/-- `progressFactor = 100.0 / float(numControlPoints)`. -/
def skinWrapFactor (srcIdxs : List Nat) : ℚ :=
  100 / (srcIdxs.length : ℚ)

/-- The control points built by the setup phase of `SkinWrap.transfer`,
together with its progress events and a possible abort. -/
def skinWrapControlPoints (env : Env) (falloff : ℤ) (distanceInfluence : ℚ)
    (faceLimit : Nat) (srcIdxs tgtIdxs : List Nat) :
    List ControlPoint × List Ev × Option Err :=
  skinWrapSetup env falloff distanceInfluence faceLimit tgtIdxs
    (skinWrapOtherPoints env tgtIdxs) (skinWrapFactor srcIdxs) srcIdxs 0

/-- The accumulated raw updates of `SkinWrap.transfer`, with the accumulation
phase's progress events. -/
def skinWrapAccumRes (env : Env) (falloff : ℤ) (distanceInfluence : ℚ)
    (faceLimit : Nat) (srcIdxs tgtIdxs : List Nat) :
    List (Nat × WeightMap) × List Ev :=
  skinWrapAccum env (skinWrapFactor srcIdxs)
    (skinWrapControlPoints env falloff distanceInfluence faceLimit srcIdxs
      tgtIdxs).1 1 []

/-- The normalized updates of `SkinWrap.transfer` before the closest-point
fallback. -/
def skinWrapNormalized (env : Env) (falloff : ℤ) (distanceInfluence : ℚ)
    (faceLimit : Nat) (srcIdxs tgtIdxs : List Nat) : List (Nat × WeightMap) :=
  normalizeUpdates env.otherSkin.maxInfluences
    (skinWrapAccumRes env falloff distanceInfluence faceLimit srcIdxs tgtIdxs).1

/-- The missing target vertices of `SkinWrap.transfer`: the requested target
vertices with no normalized update at all. -/
def skinWrapMissing (env : Env) (falloff : ℤ) (distanceInfluence : ℚ)
    (faceLimit : Nat) (srcIdxs tgtIdxs : List Nat) : List Nat :=
  tgtIdxs.filter (fun v =>
    (dlookup (skinWrapNormalized env falloff distanceInfluence faceLimit
      srcIdxs tgtIdxs) v).isNone)

/-- `SkinWrap.transfer` (`libs/skinwrap.py`): build the target point tree,
compute `progressFactor` (raising `ZeroDivisionError` on an empty source
subset), run the setup and accumulation phases, normalize, resolve the
missing target vertices through `closestVertexWeights`, then remap the final
updates through the influence map and apply them to the target skin as one
batch. -/
def skinWrapTransfer (env : Env) (falloff : ℤ) (distanceInfluence : ℚ)
    (faceLimit : Nat) (srcIdxs tgtIdxs : List Nat) : List Ev × Option Err :=
  if srcIdxs.length = 0 then ([], some .zeroDivision)
  else
    match (skinWrapControlPoints env falloff distanceInfluence faceLimit
        srcIdxs tgtIdxs).2.2 with
    | some e =>
      ((skinWrapControlPoints env falloff distanceInfluence faceLimit srcIdxs
        tgtIdxs).2.1, some e)
    | none =>
      match (if (skinWrapMissing env falloff distanceInfluence faceLimit
            srcIdxs tgtIdxs).length = 0 then
          some (skinWrapNormalized env falloff distanceInfluence faceLimit
            srcIdxs tgtIdxs)
        else
          (closestVertexWeights env srcIdxs
            (skinWrapMissing env falloff distanceInfluence faceLimit srcIdxs
              tgtIdxs)).map
            (dupdate (skinWrapNormalized env falloff distanceInfluence
              faceLimit srcIdxs tgtIdxs))) with
      | none =>
        ((skinWrapControlPoints env falloff distanceInfluence faceLimit
            srcIdxs tgtIdxs).2.1 ++
          (skinWrapAccumRes env falloff distanceInfluence faceLimit srcIdxs
            tgtIdxs).2, some .keyError)
      | some finalUpdates =>
        ((skinWrapControlPoints env falloff distanceInfluence faceLimit
            srcIdxs tgtIdxs).2.1 ++
          (skinWrapAccumRes env falloff distanceInfluence faceLimit srcIdxs
            tgtIdxs).2 ++
          [Ev.apply (remapVertexWeights finalUpdates env.influenceMap)], none)

theorem growFacesLoop_eq_iterate (mesh : MeshData) :
    ∀ (k : Nat) (s : Finset Nat), growFacesLoop mesh k s =
      (fun t => t ∪ (mesh.connectedFacesOfFaces t).toFinset)^[k] s := by
  intro k
  induction k with
  | zero => intro s; rfl
  | succ n ih =>
    intro s
    rw [growFacesLoop, ih, Function.iterate_succ_apply]

/-- Claim C7: for every source vertex in the Skin Wrap setup phase, the face
neighborhood is the faces directly touching the vertex grown by exactly
`faceLimit - 1` iterations of adding the faces connected to the current set,
and the control point's influence radius is the average length of the edges
of the grown face set multiplied by `distanceInfluence`. -/
theorem skinWrap_controlPoint_radius (env : Env) (falloff : ℤ)
    (distanceInfluence : ℚ) (faceLimit : Nat) (tgtIdxs : List Nat)
    (otherPoints : List ℚ) (v : Nat) (hfl : 1 ≤ faceLimit)
    (hedges : env.mesh.connectedEdgesOfFaces (growFaces env.mesh faceLimit v) ≠ []) :
    growFaces env.mesh faceLimit v =
      (fun t => t ∪ (env.mesh.connectedFacesOfFaces t).toFinset)^[faceLimit - 1]
        ((env.mesh.connectedFacesOfVertex v).toFinset) ∧
    ∃ cp, initializeControlPoint env falloff distanceInfluence faceLimit
        tgtIdxs otherPoints v = .ok cp ∧
      cp.index = v ∧ cp.point = env.mesh.position v ∧
      cp.radius =
        (((env.mesh.connectedEdgesOfFaces (growFaces env.mesh faceLimit v)).map
            (fun e => env.dist (env.mesh.position (env.mesh.edgeVertices e).1)
              (env.mesh.position (env.mesh.edgeVertices e).2))).sum /
          ((env.mesh.connectedEdgesOfFaces
            (growFaces env.mesh faceLimit v)).length : ℚ)) * distanceInfluence := by
  have hcount : ¬ (env.mesh.connectedEdgesOfFaces
      (growFaces env.mesh faceLimit v)).length = 0 := by
    simpa [List.length_eq_zero] using hedges
  refine ⟨growFacesLoop_eq_iterate env.mesh (faceLimit - 1) _, ?_⟩
  rw [initializeControlPoint]
  rw [if_neg hcount]
  exact ⟨_, rfl, rfl, rfl, rfl⟩

/-- Witness for C7: on the concrete mesh the grown neighborhood of vertex 0
with `faceLimit = 3` is computed by two growth steps and the radius is the
lone edge's length `1` times the default `distanceInfluence = 1.2`. -/
theorem skinWrap_controlPoint_radius_witness :
    growFaces sampleMesh 3 0 =
      (fun t => t ∪ (sampleMesh.connectedFacesOfFaces t).toFinset)^[3 - 1]
        ((sampleMesh.connectedFacesOfVertex 0).toFinset) ∧
    ∃ cp, initializeControlPoint sampleEnv 0 (6/5) 3 [0] [0] 0 = .ok cp ∧
      cp.index = 0 ∧ cp.point = sampleEnv.mesh.position 0 ∧
      cp.radius =
        (((sampleEnv.mesh.connectedEdgesOfFaces (growFaces sampleEnv.mesh 3 0)).map
            (fun e => sampleEnv.dist
              (sampleEnv.mesh.position (sampleEnv.mesh.edgeVertices e).1)
              (sampleEnv.mesh.position (sampleEnv.mesh.edgeVertices e).2))).sum /
          ((sampleEnv.mesh.connectedEdgesOfFaces
            (growFaces sampleEnv.mesh 3 0)).length : ℚ)) * (6/5) :=
  skinWrap_controlPoint_radius sampleEnv 0 (6/5) 3 [0] [0] 0 (by norm_num)
    (by simp [sampleEnv, sampleMesh])

/-- Claim C4 is violated by the code: on a Skin Wrap transfer with one source
control point and one target vertex, the accumulation loop (which enumerates
from 1 and then adds 1 again) signals `notify(150)`, outside the claimed
`[0, 100]` progress range. -/
theorem skinWrap_progress_exceeds_100 :
    skinWrapTransfer sampleEnv 0 (6/5) 3 [0] [0] =
      ([Ev.notify 50, Ev.notify 150, Ev.apply [(0, [(0, 1)])]], none) := by
  norm_num [skinWrapTransfer, skinWrapControlPoints, skinWrapSetup,
    skinWrapAccumRes, skinWrapAccum, skinWrapNormalized, skinWrapMissing,
    skinWrapOtherPoints, skinWrapFactor, initializeControlPoint, sampleEnv,
    sampleMesh, sampleSkin, growFaces, growFacesLoop, ballIndices,
    localVertexMap, computeWeight, List.filterMap_cons, List.get?,
    applyControlPoint, bump, dinsert, dlookup, normalizeUpdates,
    normalizeWeights, remapVertexWeights, remapOne, dupdate,
    closestVertexWeights, closestVertexWeightsAux]

theorem dlookup_isSome_iff {α : Type} (d : List (Nat × α)) (k : Nat) :
    (dlookup d k).isSome ↔ k ∈ d.map Prod.fst := by
  induction d with
  | nil => simp [dlookup]
  | cons e rest ih =>
    by_cases h : e.1 = k
    · simp [dlookup, h]
    · have h2 : ¬ k = e.1 := fun hh => h hh.symm
      simp [dlookup, h, h2, ih]

theorem dlookup_dupdate_not_mem {α : Type} (d2 : List (Nat × α)) (k : Nat)
    (h : k ∉ d2.map Prod.fst) :
    ∀ d, dlookup (dupdate d d2) k = dlookup d k := by
  induction d2 with
  | nil => intro d; rfl
  | cons e rest ih =>
    intro d
    simp only [List.map_cons, List.mem_cons] at h
    push_neg at h
    rw [show dupdate d (e :: rest) = dupdate (dinsert d e.1 e.2) rest from rfl]
    rw [ih h.2 (dinsert d e.1 e.2),
      dlookup_dinsert_ne d e.1 k e.2 (fun hh => h.1 hh)]

theorem dlookup_dupdate_isSome_left {α : Type} (d2 : List (Nat × α)) (k : Nat) :
    ∀ d, (dlookup d k).isSome → (dlookup (dupdate d d2) k).isSome := by
  induction d2 with
  | nil => intro d h; exact h
  | cons e rest ih =>
    intro d h
    rw [show dupdate d (e :: rest) = dupdate (dinsert d e.1 e.2) rest from rfl]
    apply ih
    by_cases hk : k = e.1
    · subst hk
      rw [dlookup_dinsert_self]
      rfl
    · rw [dlookup_dinsert_ne d e.1 k e.2 hk]
      exact h

theorem dlookup_dupdate_isSome_right {α : Type} (d2 : List (Nat × α)) (k : Nat)
    (h : k ∈ d2.map Prod.fst) :
    ∀ d, (dlookup (dupdate d d2) k).isSome := by
  induction d2 with
  | nil => simp at h
  | cons e rest ih =>
    intro d
    by_cases hr : k ∈ rest.map Prod.fst
    · rw [show dupdate d (e :: rest) = dupdate (dinsert d e.1 e.2) rest from rfl]
      exact ih hr (dinsert d e.1 e.2)
    · have hk : k = e.1 := by
        simp only [List.map_cons, List.mem_cons] at h
        tauto
      subst hk
      rw [show dupdate d (e :: rest) = dupdate (dinsert d e.1 e.2) rest from rfl]
      rw [dlookup_dupdate_not_mem rest e.1 hr (dinsert d e.1 e.2),
        dlookup_dinsert_self]
      rfl

theorem dlookup_remapVertexWeights (us : List (Nat × WeightMap))
    (imap : Nat → Nat) (k : Nat) :
    dlookup (remapVertexWeights us imap) k =
      (dlookup us k).map (fun m => remapOne m imap) := by
  induction us with
  | nil => rfl
  | cons e rest ih =>
    by_cases h : e.1 = k <;> simp [remapVertexWeights, dlookup, h] <;>
      simpa [remapVertexWeights] using ih

/-- Whether a control-point construction succeeded with a strictly positive
influence radius. -/
def cpRadiusPos (r : Except Err ControlPoint) : Bool :=
  match r with
  | .ok cp => decide (0 < cp.radius)
  | .error _ => false

theorem cpRadiusPos_ok {r : Except Err ControlPoint}
    (h : cpRadiusPos r = true) : ∃ cp, r = .ok cp ∧ 0 < cp.radius := by
  cases r with
  | error e => exact absurd h (by simp [cpRadiusPos])
  | ok cp =>
    refine ⟨cp, rfl, of_decide_eq_true ?_⟩
    simpa [cpRadiusPos] using h

theorem skinWrapSetup_ok (env : Env) (falloff : ℤ) (distanceInfluence : ℚ)
    (faceLimit : Nat) (tgtIdxs : List Nat) (otherPoints : List ℚ) (factor : ℚ) :
    ∀ (src : List Nat) (i : Nat),
      (∀ v ∈ src, ∃ cp, initializeControlPoint env falloff distanceInfluence
        faceLimit tgtIdxs otherPoints v = .ok cp) →
      (skinWrapSetup env falloff distanceInfluence faceLimit tgtIdxs
        otherPoints factor src i).2.2 = none := by
  intro src
  induction src with
  | nil => intro i _; rfl
  | cons v rest ih =>
    intro i hall
    obtain ⟨cp, hcp⟩ := hall v (List.mem_cons_self v rest)
    simp only [skinWrapSetup, hcp]
    exact ih (i + 1) (fun v' hv' => hall v' (List.mem_cons_of_mem v hv'))

theorem closestVertexWeightsAux_ok (env : Env) (srcIdxs : List Nat)
    (hsrc : srcIdxs ≠ []) :
    ∀ missing, ∃ us,
      closestVertexWeightsAux env srcIdxs (srcIdxs.map env.skin.controlPoints)
        missing = some us ∧ us.map Prod.fst = missing := by
  have hne : srcIdxs.map env.skin.controlPoints ≠ [] := by
    simpa [List.map_eq_nil] using hsrc
  intro missing
  induction missing with
  | nil => exact ⟨[], rfl, rfl⟩
  | cons v rest ih =>
    obtain ⟨li, hli⟩ := Option.isSome_iff_exists.mp
      (nearestIdx_isSome env.dist (srcIdxs.map env.skin.controlPoints)
        (env.otherSkin.controlPoints v) hne)
    have hlt : li < srcIdxs.length := by
      simpa using (nearestIdx_spec env.dist (srcIdxs.map env.skin.controlPoints)
        (env.otherSkin.controlPoints v) li hli).1
    obtain ⟨gi, hgi⟩ : ∃ gi, localVertexMap srcIdxs li = some gi :=
      ⟨srcIdxs.get ⟨li, hlt⟩, List.get?_eq_get hlt⟩
    obtain ⟨us, hus, hkeys⟩ := ih
    refine ⟨(v, env.skin.vertexWeights gi) :: us, ?_, by simp [hkeys]⟩
    simp only [closestVertexWeightsAux, hli, hgi, hus]

/-- Claim C1: for every Skin Wrap transfer over a non-empty source subset
whose control points all build with a radius `> 0`, the transfer completes
without error; every target vertex without a normalized accumulated update is
collected as a miss (`skinWrapMissing` is exactly that filter, by definition);
the misses, when present, are resolved by running the closest-point fallback
over exactly the missing subset; the covered vertices keep their accumulated
normalized weights; and every requested target vertex has an update in the
single batch applied at the end. -/
theorem skinWrap_transfer_coverage (env : Env) (falloff : ℤ)
    (distanceInfluence : ℚ) (faceLimit : Nat) (srcIdxs tgtIdxs : List Nat)
    (hsrc : srcIdxs ≠ [])
    (hcp : ∀ v ∈ srcIdxs, cpRadiusPos (initializeControlPoint env falloff
      distanceInfluence faceLimit tgtIdxs (skinWrapOtherPoints env tgtIdxs) v) =
      true) :
    (skinWrapTransfer env falloff distanceInfluence faceLimit srcIdxs
      tgtIdxs).2 = none ∧
    ∃ pre cvw finalUpdates,
      (skinWrapTransfer env falloff distanceInfluence faceLimit srcIdxs
        tgtIdxs).1 =
        pre ++ [Ev.apply (remapVertexWeights finalUpdates env.influenceMap)] ∧
      (skinWrapMissing env falloff distanceInfluence faceLimit srcIdxs
          tgtIdxs = [] →
        finalUpdates = skinWrapNormalized env falloff distanceInfluence
          faceLimit srcIdxs tgtIdxs) ∧
      (skinWrapMissing env falloff distanceInfluence faceLimit srcIdxs
          tgtIdxs ≠ [] →
        closestVertexWeights env srcIdxs
          (skinWrapMissing env falloff distanceInfluence faceLimit srcIdxs
            tgtIdxs) = some cvw ∧
        cvw.map Prod.fst = skinWrapMissing env falloff distanceInfluence
          faceLimit srcIdxs tgtIdxs ∧
        finalUpdates = dupdate (skinWrapNormalized env falloff
          distanceInfluence faceLimit srcIdxs tgtIdxs) cvw) ∧
      (∀ v ∈ tgtIdxs, v ∉ skinWrapMissing env falloff distanceInfluence
          faceLimit srcIdxs tgtIdxs →
        dlookup finalUpdates v = dlookup (skinWrapNormalized env falloff
          distanceInfluence faceLimit srcIdxs tgtIdxs) v) ∧
      (∀ v ∈ tgtIdxs, (dlookup finalUpdates v).isSome) ∧
      (∀ v ∈ tgtIdxs,
        (dlookup (remapVertexWeights finalUpdates env.influenceMap)
          v).isSome) := by
  have hn0 : ¬ srcIdxs.length = 0 := by
    simpa [List.length_eq_zero] using hsrc
  have hscp : (skinWrapControlPoints env falloff distanceInfluence faceLimit
      srcIdxs tgtIdxs).2.2 = none :=
    skinWrapSetup_ok env falloff distanceInfluence faceLimit tgtIdxs
      (skinWrapOtherPoints env tgtIdxs) (skinWrapFactor srcIdxs) srcIdxs 0
      (fun v hv => (cpRadiusPos_ok (hcp v hv)).elim
        (fun cp h => ⟨cp, h.1⟩))
  have hMfil : skinWrapMissing env falloff distanceInfluence faceLimit srcIdxs
      tgtIdxs = tgtIdxs.filter (fun v =>
        (dlookup (skinWrapNormalized env falloff distanceInfluence faceLimit
          srcIdxs tgtIdxs) v).isNone) := rfl
  have hcov : ∀ v ∈ tgtIdxs,
      v ∉ skinWrapMissing env falloff distanceInfluence faceLimit srcIdxs
        tgtIdxs →
      (dlookup (skinWrapNormalized env falloff distanceInfluence faceLimit
        srcIdxs tgtIdxs) v).isSome := by
    intro v hv hnm
    rw [hMfil] at hnm
    by_cases hs : (dlookup (skinWrapNormalized env falloff distanceInfluence
        faceLimit srcIdxs tgtIdxs) v).isNone
    · exact absurd (List.mem_filter.mpr ⟨hv, by simpa using hs⟩) hnm
    · cases hd : dlookup (skinWrapNormalized env falloff distanceInfluence
          faceLimit srcIdxs tgtIdxs) v with
      | none => exact absurd (by simp [hd]) hs
      | some m => rfl
  by_cases hm : skinWrapMissing env falloff distanceInfluence faceLimit
      srcIdxs tgtIdxs = []
  · have hml : (skinWrapMissing env falloff distanceInfluence faceLimit
        srcIdxs tgtIdxs).length = 0 := by rw [hm]; rfl
    have hcov2 : ∀ v ∈ tgtIdxs,
        (dlookup (skinWrapNormalized env falloff distanceInfluence faceLimit
          srcIdxs tgtIdxs) v).isSome := by
      intro v hv
      exact hcov v hv (by rw [hm]; exact List.not_mem_nil v)
    constructor
    · simp only [skinWrapTransfer, if_neg hn0, hscp, if_pos hml]
    · refine ⟨(skinWrapControlPoints env falloff distanceInfluence faceLimit
          srcIdxs tgtIdxs).2.1 ++
        (skinWrapAccumRes env falloff distanceInfluence faceLimit srcIdxs
          tgtIdxs).2, [],
        skinWrapNormalized env falloff distanceInfluence faceLimit srcIdxs
          tgtIdxs, ?_, fun _ => rfl, fun hne => absurd hm hne, ?_, hcov2, ?_⟩
      · simp only [skinWrapTransfer, if_neg hn0, hscp, if_pos hml]
      · intro v _ _
        rfl
      · intro v hv
        rw [dlookup_remapVertexWeights]
        have := hcov2 v hv
        cases hd : dlookup (skinWrapNormalized env falloff distanceInfluence
            faceLimit srcIdxs tgtIdxs) v with
        | none => rw [hd] at this; exact absurd this (by simp)
        | some m => rfl
  · have hml : ¬ (skinWrapMissing env falloff distanceInfluence faceLimit
        srcIdxs tgtIdxs).length = 0 := by
      simpa [List.length_eq_zero] using hm
    obtain ⟨cvw, hcvw, hkeys⟩ := closestVertexWeightsAux_ok env srcIdxs hsrc
      (skinWrapMissing env falloff distanceInfluence faceLimit srcIdxs tgtIdxs)
    have hcvw2 : closestVertexWeights env srcIdxs
        (skinWrapMissing env falloff distanceInfluence faceLimit srcIdxs
          tgtIdxs) = some cvw := hcvw
    have hcovfinal : ∀ v ∈ tgtIdxs,
        (dlookup (dupdate (skinWrapNormalized env falloff distanceInfluence
          faceLimit srcIdxs tgtIdxs) cvw) v).isSome := by
      intro v hv
      by_cases hin : v ∈ skinWrapMissing env falloff distanceInfluence
          faceLimit srcIdxs tgtIdxs
      · exact dlookup_dupdate_isSome_right cvw v (by rw [hkeys]; exact hin) _
      · exact dlookup_dupdate_isSome_left cvw v _ (hcov v hv hin)
    constructor
    · simp only [skinWrapTransfer, if_neg hn0, hscp, if_neg hml, hcvw2,
        Option.map_some']
    · refine ⟨(skinWrapControlPoints env falloff distanceInfluence faceLimit
          srcIdxs tgtIdxs).2.1 ++
        (skinWrapAccumRes env falloff distanceInfluence faceLimit srcIdxs
          tgtIdxs).2, cvw,
        dupdate (skinWrapNormalized env falloff distanceInfluence faceLimit
          srcIdxs tgtIdxs) cvw, ?_, fun h => absurd h hm,
        fun _ => ⟨hcvw2, hkeys, rfl⟩, ?_, hcovfinal, ?_⟩
      · simp only [skinWrapTransfer, if_neg hn0, hscp, if_neg hml, hcvw2,
          Option.map_some']
      · intro v _ hnm
        exact dlookup_dupdate_not_mem cvw v (by rw [hkeys]; exact hnm) _
      · intro v hv
        rw [dlookup_remapVertexWeights]
        have := hcovfinal v hv
        cases hd : dlookup (dupdate (skinWrapNormalized env falloff
            distanceInfluence faceLimit srcIdxs tgtIdxs) cvw) v with
        | none => rw [hd] at this; exact absurd this (by simp)
        | some m => rfl

/-- The batch writes (`applyVertexWeights` calls) contained in an event
trace. -/
def applyEvents (evs : List Ev) : List (List (Nat × WeightMap)) :=
  evs.filterMap (fun e => match e with
    | .apply b => some b
    | .notify _ => none)

theorem applyEvents_append (l1 l2 : List Ev) :
    applyEvents (l1 ++ l2) = applyEvents l1 ++ applyEvents l2 :=
  List.filterMap_append l1 l2 _

/-- A transfer run performs at most one batch write, as the last event, and
none at all when it aborts with an error; the single batch it does write is a
remap of per-vertex updates through the influence map. -/
def SingleBatch (env : Env) (r : List Ev × Option Err) : Prop :=
  (r.2 = none → ∃ us pre,
    r.1 = pre ++ [Ev.apply (remapVertexWeights us env.influenceMap)] ∧
    applyEvents pre = []) ∧
  (r.2 ≠ none → applyEvents r.1 = [])

theorem closestPointLoop_events (env : Env) (srcIdxs : List Nat)
    (srcPts : List ℚ) (factor : ℚ) :
    ∀ (l : List (Nat × ℚ)) (i : Nat) (us : List (Nat × WeightMap)),
      applyEvents (closestPointLoop env srcIdxs srcPts factor l i us).2.1 = [] := by
  intro l
  induction l with
  | nil => intro i us; rfl
  | cons vp rest ih =>
    intro i us
    obtain ⟨v, p⟩ := vp
    cases hn : nearestIdx env.dist srcPts p with
    | none => simp [closestPointLoop, hn, applyEvents]
    | some li =>
      cases hg : localVertexMap srcIdxs li with
      | none => simp [closestPointLoop, hn, hg, applyEvents]
      | some gi =>
        simp only [closestPointLoop, hn, hg]
        simpa [applyEvents] using
          ih (i + 1) (dinsert us v (env.skin.vertexWeights gi))

theorem inverseDistanceLoop_events (env : Env) (srcPts : List ℚ)
    (srcMaps : List WeightMap) (power : Nat) :
    ∀ (l : List (Nat × ℚ)) (i : Nat) (us : List (Nat × WeightMap)),
      applyEvents
        (inverseDistanceLoop env srcPts srcMaps power l i us).2.1 = [] := by
  intro l
  induction l with
  | nil => intro i us; rfl
  | cons vp rest ih =>
    intro i us
    obtain ⟨v, p⟩ := vp
    cases hw : inverseDistanceWeights srcMaps
        (srcPts.map (fun op => env.dist p op)) power with
    | error e => simp [inverseDistanceLoop, hw, applyEvents]
    | ok avg =>
      simp only [inverseDistanceLoop, hw]
      simpa [applyEvents] using ih (i + 1) (dinsert us v avg)

theorem pointOnSurfaceLoop_events (env : Env) (factor : ℚ) :
    ∀ (l : List (Nat × Hit)) (i : Nat) (us : List (Nat × WeightMap)),
      applyEvents (pointOnSurfaceLoop env factor l i us).2.1 = [] := by
  intro l
  induction l with
  | nil => intro i us; rfl
  | cons vh rest ih =>
    intro i us
    obtain ⟨v, h⟩ := vh
    cases hu : pointOnSurfaceVertexUpdate env h with
    | error e => simp [pointOnSurfaceLoop, hu, applyEvents]
    | ok m =>
      simp only [pointOnSurfaceLoop, hu]
      simpa [applyEvents] using ih (i + 1) (dinsert us v m)

theorem skinWrapSetup_events (env : Env) (falloff : ℤ)
    (distanceInfluence : ℚ) (faceLimit : Nat) (tgtIdxs : List Nat)
    (otherPoints : List ℚ) (factor : ℚ) :
    ∀ (src : List Nat) (i : Nat),
      applyEvents (skinWrapSetup env falloff distanceInfluence faceLimit
        tgtIdxs otherPoints factor src i).2.1 = [] := by
  intro src
  induction src with
  | nil => intro i; rfl
  | cons v rest ih =>
    intro i
    cases hc : initializeControlPoint env falloff distanceInfluence faceLimit
        tgtIdxs otherPoints v with
    | error e => simp [skinWrapSetup, hc, applyEvents]
    | ok cp =>
      simp only [skinWrapSetup, hc]
      simpa [applyEvents] using ih (i + 1)

theorem skinWrapAccum_events (env : Env) (factor : ℚ) :
    ∀ (cps : List ControlPoint) (i : Nat) (us : List (Nat × WeightMap)),
      applyEvents (skinWrapAccum env factor cps i us).2 = [] := by
  intro cps
  induction cps with
  | nil => intro i us; rfl
  | cons cp rest ih =>
    intro i us
    simp only [skinWrapAccum]
    simpa [applyEvents] using ih (i + 1) (applyControlPoint env cp us)

/-- Claim C8: every transfer invocation of any of the four algorithms writes
to the target skin at most once — a single batch, remapped through the
influence map, appearing only as the final event of an error-free run; when
any error aborts the computation, no write occurs at all. -/
theorem transfers_single_batch_write (env : Env) (srcIdxs tgtIdxs : List Nat)
    (power : Nat) (falloff : ℤ) (distanceInfluence : ℚ) (faceLimit : Nat) :
    SingleBatch env (closestPointTransfer env srcIdxs tgtIdxs) ∧
    SingleBatch env (inverseDistanceTransfer env srcIdxs tgtIdxs power) ∧
    SingleBatch env (pointOnSurfaceTransfer env srcIdxs tgtIdxs) ∧
    SingleBatch env (skinWrapTransfer env falloff distanceInfluence faceLimit
      srcIdxs tgtIdxs) := by
  refine ⟨⟨?_, ?_⟩, ⟨?_, ?_⟩, ⟨?_, ?_⟩, ⟨?_, ?_⟩⟩
  · intro h
    by_cases hl : tgtIdxs.length = 0
    · simp [closestPointTransfer, hl] at h
    · cases he : (closestPointUpdates env srcIdxs tgtIdxs).2.2 with
      | some e => simp [closestPointTransfer, hl, he] at h
      | none =>
        refine ⟨(closestPointUpdates env srcIdxs tgtIdxs).1,
          (closestPointUpdates env srcIdxs tgtIdxs).2.1, ?_, ?_⟩
        · simp [closestPointTransfer, hl, he]
        · exact closestPointLoop_events env srcIdxs
            (srcIdxs.map env.skin.controlPoints) (100 / (tgtIdxs.length : ℚ))
            (tgtIdxs.zip (tgtIdxs.map env.otherSkin.controlPoints)) 1 []
  · intro h
    by_cases hl : tgtIdxs.length = 0
    · simp [closestPointTransfer, hl, applyEvents]
    · cases he : (closestPointUpdates env srcIdxs tgtIdxs).2.2 with
      | some e =>
        simp only [closestPointTransfer, if_neg hl, he]
        exact closestPointLoop_events env srcIdxs
          (srcIdxs.map env.skin.controlPoints) (100 / (tgtIdxs.length : ℚ))
          (tgtIdxs.zip (tgtIdxs.map env.otherSkin.controlPoints)) 1 []
      | none => simp [closestPointTransfer, hl, he] at h
  · intro h
    cases he : (inverseDistanceLoop env
        ((starIndices env.skin srcIdxs).map env.skin.controlPoints)
        ((starIndices env.skin srcIdxs).map env.skin.vertexWeights) power
        (tgtIdxs.zip (tgtIdxs.map env.otherSkin.controlPoints)) 1 []).2.2 with
    | some e => simp [inverseDistanceTransfer, he] at h
    | none =>
      refine ⟨(inverseDistanceLoop env
          ((starIndices env.skin srcIdxs).map env.skin.controlPoints)
          ((starIndices env.skin srcIdxs).map env.skin.vertexWeights) power
          (tgtIdxs.zip (tgtIdxs.map env.otherSkin.controlPoints)) 1 []).1,
        (inverseDistanceLoop env
          ((starIndices env.skin srcIdxs).map env.skin.controlPoints)
          ((starIndices env.skin srcIdxs).map env.skin.vertexWeights) power
          (tgtIdxs.zip (tgtIdxs.map env.otherSkin.controlPoints)) 1 []).2.1,
        ?_, ?_⟩
      · simp [inverseDistanceTransfer, he]
      · exact inverseDistanceLoop_events env
          ((starIndices env.skin srcIdxs).map env.skin.controlPoints)
          ((starIndices env.skin srcIdxs).map env.skin.vertexWeights) power
          (tgtIdxs.zip (tgtIdxs.map env.otherSkin.controlPoints)) 1 []
  · intro h
    cases he : (inverseDistanceLoop env
        ((starIndices env.skin srcIdxs).map env.skin.controlPoints)
        ((starIndices env.skin srcIdxs).map env.skin.vertexWeights) power
        (tgtIdxs.zip (tgtIdxs.map env.otherSkin.controlPoints)) 1 []).2.2 with
    | some e =>
      simp only [inverseDistanceTransfer, he]
      exact inverseDistanceLoop_events env
        ((starIndices env.skin srcIdxs).map env.skin.controlPoints)
        ((starIndices env.skin srcIdxs).map env.skin.vertexWeights) power
        (tgtIdxs.zip (tgtIdxs.map env.otherSkin.controlPoints)) 1 []
    | none => simp [inverseDistanceTransfer, he] at h
  · intro h
    by_cases hl : tgtIdxs.length = 0
    · simp [pointOnSurfaceTransfer, hl] at h
    · cases he : (pointOnSurfaceLoop env (100 / (tgtIdxs.length : ℚ))
          (tgtIdxs.zip ((tgtIdxs.map env.otherSkin.controlPoints).map
            (env.mesh.closestPointOnSurface
              (pointOnSurfaceFaceIndices env srcIdxs)))) 1 []).2.2 with
      | some e =>
        simp only [pointOnSurfaceTransfer, if_neg hl, he] at h
        simp at h
      | none =>
        refine ⟨(pointOnSurfaceLoop env (100 / (tgtIdxs.length : ℚ))
            (tgtIdxs.zip ((tgtIdxs.map env.otherSkin.controlPoints).map
              (env.mesh.closestPointOnSurface
                (pointOnSurfaceFaceIndices env srcIdxs)))) 1 []).1,
          (pointOnSurfaceLoop env (100 / (tgtIdxs.length : ℚ))
            (tgtIdxs.zip ((tgtIdxs.map env.otherSkin.controlPoints).map
              (env.mesh.closestPointOnSurface
                (pointOnSurfaceFaceIndices env srcIdxs)))) 1 []).2.1, ?_, ?_⟩
        · simp only [pointOnSurfaceTransfer, if_neg hl, he]
        · exact pointOnSurfaceLoop_events env (100 / (tgtIdxs.length : ℚ)) _ 1 []
  · intro h
    by_cases hl : tgtIdxs.length = 0
    · simp [pointOnSurfaceTransfer, hl, applyEvents]
    · cases he : (pointOnSurfaceLoop env (100 / (tgtIdxs.length : ℚ))
          (tgtIdxs.zip ((tgtIdxs.map env.otherSkin.controlPoints).map
            (env.mesh.closestPointOnSurface
              (pointOnSurfaceFaceIndices env srcIdxs)))) 1 []).2.2 with
      | some e =>
        simp only [pointOnSurfaceTransfer, if_neg hl, he]
        exact pointOnSurfaceLoop_events env (100 / (tgtIdxs.length : ℚ)) _ 1 []
      | none =>
        simp only [pointOnSurfaceTransfer, if_neg hl, he] at h
        simp at h
  · intro h
    by_cases hl : srcIdxs.length = 0
    · simp [skinWrapTransfer, hl] at h
    · cases he : (skinWrapControlPoints env falloff distanceInfluence
          faceLimit srcIdxs tgtIdxs).2.2 with
      | some e =>
        simp only [skinWrapTransfer, if_neg hl, he] at h
        simp at h
      | none =>
        cases hf : (if (skinWrapMissing env falloff distanceInfluence
              faceLimit srcIdxs tgtIdxs).length = 0 then
            some (skinWrapNormalized env falloff distanceInfluence faceLimit
              srcIdxs tgtIdxs)
          else
            (closestVertexWeights env srcIdxs
              (skinWrapMissing env falloff distanceInfluence faceLimit srcIdxs
                tgtIdxs)).map
              (dupdate (skinWrapNormalized env falloff distanceInfluence
                faceLimit srcIdxs tgtIdxs))) with
        | none =>
          simp only [skinWrapTransfer, if_neg hl, he, hf] at h
          simp at h
        | some f =>
          refine ⟨f, (skinWrapControlPoints env falloff distanceInfluence
              faceLimit srcIdxs tgtIdxs).2.1 ++
            (skinWrapAccumRes env falloff distanceInfluence faceLimit srcIdxs
              tgtIdxs).2, ?_, ?_⟩
          · simp only [skinWrapTransfer, if_neg hl, he, hf]
          · have h1 : applyEvents (skinWrapControlPoints env falloff
                distanceInfluence faceLimit srcIdxs tgtIdxs).2.1 = [] :=
              skinWrapSetup_events env falloff distanceInfluence faceLimit
                tgtIdxs (skinWrapOtherPoints env tgtIdxs)
                (skinWrapFactor srcIdxs) srcIdxs 0
            have h2 : applyEvents (skinWrapAccumRes env falloff
                distanceInfluence faceLimit srcIdxs tgtIdxs).2 = [] :=
              skinWrapAccum_events env (skinWrapFactor srcIdxs)
                (skinWrapControlPoints env falloff distanceInfluence faceLimit
                  srcIdxs tgtIdxs).1 1 []
            rw [applyEvents_append, h1, h2]
            rfl
  · intro h
    by_cases hl : srcIdxs.length = 0
    · simp [skinWrapTransfer, hl, applyEvents]
    · cases he : (skinWrapControlPoints env falloff distanceInfluence
          faceLimit srcIdxs tgtIdxs).2.2 with
      | some e =>
        simp only [skinWrapTransfer, if_neg hl, he]
        exact skinWrapSetup_events env falloff distanceInfluence faceLimit
          tgtIdxs (skinWrapOtherPoints env tgtIdxs) (skinWrapFactor srcIdxs)
          srcIdxs 0
      | none =>
        cases hf : (if (skinWrapMissing env falloff distanceInfluence
              faceLimit srcIdxs tgtIdxs).length = 0 then
            some (skinWrapNormalized env falloff distanceInfluence faceLimit
              srcIdxs tgtIdxs)
          else
            (closestVertexWeights env srcIdxs
              (skinWrapMissing env falloff distanceInfluence faceLimit srcIdxs
                tgtIdxs)).map
              (dupdate (skinWrapNormalized env falloff distanceInfluence
                faceLimit srcIdxs tgtIdxs))) with
        | none =>
          simp only [skinWrapTransfer, if_neg hl, he, hf]
          have h1 : applyEvents (skinWrapControlPoints env falloff
              distanceInfluence faceLimit srcIdxs tgtIdxs).2.1 = [] :=
            skinWrapSetup_events env falloff distanceInfluence faceLimit
              tgtIdxs (skinWrapOtherPoints env tgtIdxs) (skinWrapFactor srcIdxs)
              srcIdxs 0
          have h2 : applyEvents (skinWrapAccumRes env falloff
              distanceInfluence faceLimit srcIdxs tgtIdxs).2 = [] :=
            skinWrapAccum_events env (skinWrapFactor srcIdxs)
              (skinWrapControlPoints env falloff distanceInfluence faceLimit
                srcIdxs tgtIdxs).1 1 []
          rw [applyEvents_append, h1, h2]
          rfl
        | some f =>
          simp only [skinWrapTransfer, if_neg hl, he, hf] at h
          simp at h

/-- Witness for C2: on the concrete one-vertex skins the closest-point
transfer completes without error and the loop produces an update. -/
theorem closestPoint_transfer_exact_witness :
    (closestPointUpdates sampleEnv [0] [0]).2.2 = none ∧
    (closestPointTransfer sampleEnv [0] [0]).2 = none :=
  ⟨(closestPoint_transfer_exact sampleEnv [0] [0] (by simp) (by simp)).1,
   (closestPoint_transfer_exact sampleEnv [0] [0] (by simp)
     (by simp)).2.2.2.2⟩

/-- Witness for C5: on the concrete environment, whose every hit is a
triangle, the point-on-surface transfer completes without error. -/
theorem pointOnSurface_transfer_branches_witness :
    (pointOnSurfaceTransfer sampleEnv [0] [0]).2 = none :=
  (pointOnSurface_transfer_branches sampleEnv [0] [0] (by simp)
    (fun v hv => by simp [sampleEnv, sampleMesh, sampleHit])).1

/-- Witness for C1: on the concrete environment, whose lone control point has
radius `6/5 > 0`, the skin wrap transfer completes without error. -/
theorem skinWrap_transfer_coverage_witness :
    (skinWrapTransfer sampleEnv 0 (6/5) 3 [0] [0]).2 = none :=
  (skinWrap_transfer_coverage sampleEnv 0 (6/5) 3 [0] [0] (by simp)
    (fun v hv => by
      rcases List.mem_singleton.mp hv with rfl
      norm_num [cpRadiusPos, initializeControlPoint, sampleEnv, sampleMesh,
        growFaces, growFacesLoop, ballIndices, localVertexMap, computeWeight,
        skinWrapOtherPoints, List.filterMap_cons, List.get?,
        decide_eq_true_eq])).1

/-- Witness for C8: the single-batch-write property instantiated on the
concrete environment. -/
theorem transfers_single_batch_write_witness :
    SingleBatch sampleEnv (closestPointTransfer sampleEnv [0] [0]) ∧
    SingleBatch sampleEnv (skinWrapTransfer sampleEnv 0 (6/5) 3 [0] [0]) :=
  ⟨(transfers_single_batch_write sampleEnv [0] [0] 2 0 (6/5) 3).1,
   (transfers_single_batch_write sampleEnv [0] [0] 2 0 (6/5) 3).2.2.2⟩
